import Mathlib

/-!
# Verification of the OBB SAT collision detector (src/Collision.hpp)

Shallow embedding of the oriented-bounding-box collision code over exact real
arithmetic.  Every `float` of the source becomes a real number, GLM vector
operations become the corresponding `Vec3` operations, and
`std::numeric_limits<float>::max()` becomes its exact value `2^128 - 2^104`.
Definitions keep the source names.  Booleans returned by C++ comparison
helpers become propositions; out-parameters become components of returned
tuples (`overlapOnAxis` returns `Option ℝ`: `none` stands for the
`return false` path that leaves the out-parameter unread).
-/

open scoped Classical

noncomputable section

/-- 3-component real vector, standing for `glm::vec3`. -/
@[ext] structure Vec3 where
  x : ℝ
  y : ℝ
  z : ℝ

namespace Vec3

def zero : Vec3 := ⟨0, 0, 0⟩

instance : Add Vec3 := ⟨fun a b => ⟨a.x + b.x, a.y + b.y, a.z + b.z⟩⟩
instance : Sub Vec3 := ⟨fun a b => ⟨a.x - b.x, a.y - b.y, a.z - b.z⟩⟩
instance : Neg Vec3 := ⟨fun a => ⟨-a.x, -a.y, -a.z⟩⟩
instance : SMul ℝ Vec3 := ⟨fun c a => ⟨c * a.x, c * a.y, c * a.z⟩⟩

@[simp] theorem add_def (a b : Vec3) : a + b = ⟨a.x + b.x, a.y + b.y, a.z + b.z⟩ := rfl
@[simp] theorem sub_def (a b : Vec3) : a - b = ⟨a.x - b.x, a.y - b.y, a.z - b.z⟩ := rfl
@[simp] theorem neg_def (a : Vec3) : -a = ⟨-a.x, -a.y, -a.z⟩ := rfl
@[simp] theorem smul_def (c : ℝ) (a : Vec3) : c • a = ⟨c * a.x, c * a.y, c * a.z⟩ := rfl

/-- `glm::dot`. -/
def dot (a b : Vec3) : ℝ := a.x * b.x + a.y * b.y + a.z * b.z

/-- `glm::cross` (right-handed). -/
def cross (a b : Vec3) : Vec3 :=
  ⟨a.y * b.z - a.z * b.y, a.z * b.x - a.x * b.z, a.x * b.y - a.y * b.x⟩

/-- `glm::length`. -/
def length (a : Vec3) : ℝ := Real.sqrt (dot a a)

/-- `glm::length2`. -/
def length2 (a : Vec3) : ℝ := dot a a

/-- `glm::normalize` (division by the length; never applied to the zero
vector by the source, which guards every call with a length test). -/
def normalize (a : Vec3) : Vec3 := (1 / length a) • a

/-- Component access `v[i]`, as used on `halfExtents` by the source. -/
def nth (v : Vec3) : Fin 3 → ℝ
  | ⟨0, _⟩ => v.x
  | ⟨1, _⟩ => v.y
  | ⟨2, _⟩ => v.z

@[simp] theorem nth_zero (v : Vec3) : v.nth 0 = v.x := rfl
@[simp] theorem nth_one (v : Vec3) : v.nth 1 = v.y := rfl
@[simp] theorem nth_two (v : Vec3) : v.nth 2 = v.z := rfl

end Vec3

/-- `glm::clamp` for scalars. -/
def clamp (x lo hi : ℝ) : ℝ := min (max x lo) hi

/-- Exact value of `std::numeric_limits<float>::max()` = `(2 - 2⁻²³)·2¹²⁷`. -/
def fltMax : ℝ := 2 ^ 128 - 2 ^ 104

/-- An oriented bounding box: `struct OBB`. -/
structure OBB where
  center : Vec3
  halfExtents : Vec3
  axes : Fin 3 → Vec3

/-- `OBB::getVertices`: the 8 corners, in the fixed source order. -/
def OBB.getVertices (o : OBB) : List Vec3 :=
  let hX := o.halfExtents.x • o.axes 0
  let hY := o.halfExtents.y • o.axes 1
  let hZ := o.halfExtents.z • o.axes 2
  [ o.center + hX + hY + hZ
  , o.center + hX + hY - hZ
  , o.center + hX - hY + hZ
  , o.center + hX - hY - hZ
  , o.center - hX + hY + hZ
  , o.center - hX + hY - hZ
  , o.center - hX - hY + hZ
  , o.center - hX - hY - hZ ]

/-- `OBB::getEdges`: 12 vertex pairs, 4 per local axis, built from the fixed
vertex order. -/
def OBB.getEdges (o : OBB) : List (Vec3 × Vec3) :=
  match o.getVertices with
  | [v0, v1, v2, v3, v4, v5, v6, v7] =>
    [ (v0, v1), (v2, v3), (v4, v5), (v6, v7)
    , (v0, v2), (v1, v3), (v4, v6), (v5, v7)
    , (v0, v4), (v1, v5), (v2, v6), (v3, v7) ]
  | _ => []

/-- Result record: `struct CollisionResult`. -/
structure CollisionResult where
  collisionDetected : Bool
  collisionNormal : Vec3
  penetrationDepth : ℝ
  contactPoint : Vec3
  collisionType : String

/-- The default-constructed record (`collisionDetected = false` by member
initializer; the indeterminate float members are modelled as zero, the
`std::string` default-constructs empty). -/
def CollisionResult.default : CollisionResult :=
  { collisionDetected := false
    collisionNormal := Vec3.zero
    penetrationDepth := 0
    contactPoint := Vec3.zero
    collisionType := "" }

/-- `signedDistanceToPlane`. -/
def signedDistanceToPlane (point planeOrigin planeNormal : Vec3) : ℝ :=
  Vec3.dot (point - planeOrigin) planeNormal

/-- `isPointInFaceBounds` (a C++ `bool`, modelled as a proposition). -/
def isPointInFaceBounds (point faceCenter u v : Vec3) (uHalf vHalf : ℝ) : Prop :=
  |Vec3.dot (point - faceCenter) u| ≤ uHalf ∧ |Vec3.dot (point - faceCenter) v| ≤ vHalf

/-- The loop indices `i = 0, 1, 2` of the face loops in `vertexFaceCollision`. -/
def faceIdxList : List (Fin 3) := [0, 1, 2]

/-- One iteration of the inner loop body of `vertexFaceCollision`: test
`vertex` against face `i` of `fobb`, updating the accumulated
`(closestPoint, closestDistance)` pair exactly as the three nested `if`s do. -/
def vfCheck (fobb : OBB) (vertex : Vec3) (i : Fin 3) (acc : Vec3 × ℝ) : Vec3 × ℝ :=
  let faceNormal := fobb.axes i
  let faceCenter := fobb.center
  let u := fobb.axes (i + 1)
  let v := fobb.axes (i + 2)
  let distance := signedDistanceToPlane vertex faceCenter faceNormal
  if distance < 0 ∧
      isPointInFaceBounds vertex faceCenter u v
        (fobb.halfExtents.nth (i + 1)) (fobb.halfExtents.nth (i + 2)) ∧
      |distance| < acc.2
  then (vertex, |distance|) else acc

/-- `vertexFaceCollision`: scan OBB1's vertices against OBB2's faces, then
OBB2's vertices against OBB1's faces, tracking the candidate with the
smallest absolute plane distance; `closestPoint` starts at `(0,0,0)` and
`closestDistance` at `FLT_MAX`. -/
def vertexFaceCollision (obb1 obb2 : OBB) : Vec3 :=
  let vertices1 := obb1.getVertices
  let vertices2 := obb2.getVertices
  let acc0 : Vec3 × ℝ := (Vec3.zero, fltMax)
  let acc1 := vertices1.foldl
    (fun acc vertex => faceIdxList.foldl (fun a i => vfCheck obb2 vertex i a) acc) acc0
  let acc2 := vertices2.foldl
    (fun acc vertex => faceIdxList.foldl (fun a i => vfCheck obb1 vertex i a) acc) acc1
  acc2.1

/-- `squaredDistanceBetweenEdges`. -/
def squaredDistanceBetweenEdges (p1 q1 p2 q2 : Vec3) : ℝ :=
  let d1 := q1 - p1
  let d2 := q2 - p2
  let r := p1 - p2
  let a := Vec3.dot d1 d1
  let e := Vec3.dot d2 d2
  let f := Vec3.dot d2 r
  if a ≤ 1e-6 ∧ e ≤ 1e-6 then Vec3.dot r r
  else
    let st : ℝ × ℝ :=
      if a ≤ 1e-6 then (0, clamp (f / e) 0 1)
      else
        let c := Vec3.dot d1 r
        if e ≤ 1e-6 then (clamp (-c / a) 0 1, 0)
        else
          let b := Vec3.dot d1 d2
          let denom := a * e - b * b
          let s := if denom ≠ 0 then clamp ((b * f - c * e) / denom) 0 1 else 0
          (s, clamp ((b * s + f) / e) 0 1)
    let c1 := p1 + st.1 • d1
    let c2 := p2 + st.2 • d2
    Vec3.length2 (c1 - c2)

/-- The flattened iteration domain of `findClosestEdges`: all 12 × 12 edge
pairs, outer loop over `obb1`'s edges, inner over `obb2`'s. -/
def edgePairs (obb1 obb2 : OBB) : List ((Vec3 × Vec3) × (Vec3 × Vec3)) :=
  obb1.getEdges.flatMap fun e1 => obb2.getEdges.map fun e2 => (e1, e2)

/-- `findClosestEdges`: minimum scan over all edge pairs, starting from
`FLT_MAX` (the default-initialized `closestEdges` pair is indeterminate in
C++; it is modelled as zero vectors). -/
def findClosestEdges (obb1 obb2 : OBB) : (Vec3 × Vec3) × (Vec3 × Vec3) :=
  let edges1 := obb1.getEdges
  let edges2 := obb2.getEdges
  (edges1.foldl
    (fun acc e1 => edges2.foldl
      (fun acc2 e2 =>
        let distSquared := squaredDistanceBetweenEdges e1.1 e1.2 e2.1 e2.2
        if distSquared < acc2.2 then ((e1, e2), distSquared) else acc2)
      acc)
    (((Vec3.zero, Vec3.zero), (Vec3.zero, Vec3.zero)), fltMax)).1

/-- `closestPointBetweenLines`. -/
def closestPointBetweenLines (p1 q1 p2 q2 : Vec3) : Vec3 :=
  let d1 := q1 - p1
  let d2 := q2 - p2
  let r := p1 - p2
  let a := Vec3.dot d1 d1
  let e := Vec3.dot d2 d2
  let f := Vec3.dot d2 r
  if a ≤ 1e-6 ∧ e ≤ 1e-6 then p1
  else
    let st : ℝ × ℝ :=
      if a ≤ 1e-6 then (0, clamp (f / e) 0 1)
      else
        let c := Vec3.dot d1 r
        if e ≤ 1e-6 then (clamp (-c / a) 0 1, 0)
        else
          let b := Vec3.dot d1 d2
          let denom := a * e - b * b
          let s := if denom ≠ 0 then clamp ((b * f - c * e) / denom) 0 1 else 0
          (s, clamp ((b * s + f) / e) 0 1)
    let c1 := p1 + st.1 • d1
    let c2 := p2 + st.2 • d2
    if Vec3.length (c1 - p1) < Vec3.length (c2 - p2) then c1 else c2

/-- `edgeEdgeCollision`. -/
def edgeEdgeCollision (obb1 obb2 : OBB) : Vec3 :=
  let closestEdges := findClosestEdges obb1 obb2
  let edge1 := closestEdges.1
  let edge2 := closestEdges.2
  closestPointBetweenLines edge1.1 edge1.2 edge2.1 edge2.2

/-- `projectOBB`: the out-parameters `(min, max)` become the returned pair. -/
def projectOBB (o : OBB) (axis : Vec3) : ℝ × ℝ :=
  let centerProjection := Vec3.dot o.center axis
  let extent := o.halfExtents.x * |Vec3.dot (o.axes 0) axis|
    + o.halfExtents.y * |Vec3.dot (o.axes 1) axis|
    + o.halfExtents.z * |Vec3.dot (o.axes 2) axis|
  (centerProjection - extent, centerProjection + extent)

/-- `overlapOnAxis`: `none` is the `return false` path (out-parameter
untouched), `some d` the `return true` path with penetration depth `d`. -/
def overlapOnAxis (obb1 obb2 : OBB) (axis : Vec3) : Option ℝ :=
  let m1 := projectOBB obb1 axis
  let m2 := projectOBB obb2 axis
  if m1.2 < m2.1 ∨ m2.2 < m1.1 then none
  else some (min m1.2 m2.2 - max m1.1 m2.1)

/-- The 9 cross-product index pairs `(i, j)` in the row-major order of the
nested loops of `SATCollision`. -/
def axisPairs : List (Fin 3 × Fin 3) :=
  [(0, 0), (0, 1), (0, 2), (1, 0), (1, 1), (1, 2), (2, 0), (2, 1), (2, 2)]

/-- The kept cross-product axes: each `cross(obb1.axes[i], obb2.axes[j])`
with length above `1e-6` is normalized and appended, degenerate ones are
skipped. -/
def crossAxes (obb1 obb2 : OBB) : List Vec3 :=
  axisPairs.filterMap fun p =>
    let crossAxis := Vec3.cross (obb1.axes p.1) (obb2.axes p.2)
    if Vec3.length crossAxis > 1e-6 then some (Vec3.normalize crossAxis) else none

/-- The candidate axis array `testAxes[0..idx)` of `SATCollision`:
3 axes of OBB1, 3 axes of OBB2, then the kept cross products. -/
def buildTestAxes (obb1 obb2 : OBB) : List Vec3 :=
  [obb1.axes 0, obb1.axes 1, obb1.axes 2, obb2.axes 0, obb2.axes 1, obb2.axes 2]
    ++ crossAxes obb1 obb2

/-- The overlap-testing loop of `SATCollision`.  Arguments after the axis
list: current loop index `i`, running `minPenetrationDepth`, `smallestAxis`
and `axisType`.  `none` is the early `return false` on a separating axis;
otherwise the final tracked triple is returned. -/
def satLoop (obb1 obb2 : OBB) :
    List Vec3 → ℤ → ℝ → Vec3 → ℤ → Option (ℝ × Vec3 × ℤ)
  | [], _, minD, sAxis, aType => some (minD, sAxis, aType)
  | axis :: rest, i, minD, sAxis, aType =>
    match overlapOnAxis obb1 obb2 axis with
    | none => none
    | some penetrationDepth =>
      if penetrationDepth < minD then
        satLoop obb1 obb2 rest (i + 1) penetrationDepth axis i
      else
        satLoop obb1 obb2 rest (i + 1) minD sAxis aType

/-- `SATCollision`.  The C++ reference parameter `result` becomes an input
record returned (possibly updated) as the second component.
`minPenetrationDepth` starts at `FLT_MAX`; `smallestAxis` is uninitialized
in C++ and modelled as zero; `axisType` starts at `-1`. -/
def SATCollision (obb1 obb2 : OBB) (result : CollisionResult) :
    Bool × CollisionResult :=
  match satLoop obb1 obb2 (buildTestAxes obb1 obb2) 0 fltMax Vec3.zero (-1) with
  | none => (false, result)
  | some (minD, sAxis, aType) =>
    let r1 := { result with
      collisionDetected := true
      penetrationDepth := minD
      collisionNormal := sAxis }
    if 0 ≤ aType ∧ aType ≤ 5 then
      (true, { r1 with
        collisionType := "vertex-face"
        contactPoint := vertexFaceCollision obb1 obb2 })
    else if 6 ≤ aType ∧ aType ≤ 14 then
      (true, { r1 with
        collisionType := "edge-edge"
        contactPoint := edgeEdgeCollision obb1 obb2 })
    else (true, r1)

/-!
## Specification-side vocabulary

Named propositions and values used to state the claims; each is read off the
same projection formulas as the source. -/

/-- Axis `axis` separates the two boxes: exactly the `return false`
condition of `overlapOnAxis`. -/
def sepAx (obb1 obb2 : OBB) (axis : Vec3) : Prop :=
  (projectOBB obb1 axis).2 < (projectOBB obb2 axis).1 ∨
  (projectOBB obb2 axis).2 < (projectOBB obb1 axis).1

/-- Overlap length of the two projected intervals on `axis`
(`min(max1,max2) - max(min1,min2)`). -/
def overlapLen (obb1 obb2 : OBB) (axis : Vec3) : ℝ :=
  min (projectOBB obb1 axis).2 (projectOBB obb2 axis).2 -
    max (projectOBB obb1 axis).1 (projectOBB obb2 axis).1

/-- The list of overlap lengths along the candidate axes, in test order. -/
def depthList (obb1 obb2 : OBB) : List ℝ :=
  (buildTestAxes obb1 obb2).map (overlapLen obb1 obb2)

/-- The flattened candidate stream of `vertexFaceCollision`: each element is
`(face-owning box, vertex, face index)`, in the exact iteration order of the
two nested loops (OBB1 vertices against OBB2 faces first). -/
def vfCands (obb1 obb2 : OBB) : List (OBB × Vec3 × Fin 3) :=
  (obb1.getVertices.flatMap fun vertex => faceIdxList.map fun i => (obb2, vertex, i)) ++
  (obb2.getVertices.flatMap fun vertex => faceIdxList.map fun i => (obb1, vertex, i))

/-- The signed plane distance of a candidate. -/
def candSigned (c : OBB × Vec3 × Fin 3) : ℝ :=
  signedDistanceToPlane c.2.1 c.1.center (c.1.axes c.2.2)

/-- A candidate qualifies: strictly negative signed distance and in-plane
projection within the face bounds. -/
def candQual (c : OBB × Vec3 × Fin 3) : Prop :=
  candSigned c < 0 ∧
  isPointInFaceBounds c.2.1 c.1.center (c.1.axes (c.2.2 + 1)) (c.1.axes (c.2.2 + 2))
    (c.1.halfExtents.nth (c.2.2 + 1)) (c.1.halfExtents.nth (c.2.2 + 2))

/-- Absolute penetration distance of a candidate. -/
def candDist (c : OBB × Vec3 × Fin 3) : ℝ := |candSigned c|

/-- The candidate vertex. -/
def candVert (c : OBB × Vec3 × Fin 3) : Vec3 := c.2.1

/-- Squared segment distance of an edge pair. -/
def pairSqDist (pr : (Vec3 × Vec3) × (Vec3 × Vec3)) : ℝ :=
  squaredDistanceBetweenEdges pr.1.1 pr.1.2 pr.2.1 pr.2.2

/-- Modelled from the spec (§4.5): the nearly-parallel fallback the spec
prescribes for the segment-distance solver — force `s = 0` and solve for `t`
alone, clamped to `[0,1]`; used to compare the claimed fallback with what the
code computes. -/
def specParallelFallbackSqDist (p1 q1 p2 q2 : Vec3) : ℝ :=
  let d2 := q2 - p2
  let r := p1 - p2
  let e := Vec3.dot d2 d2
  let f := Vec3.dot d2 r
  let t := clamp (f / e) 0 1
  Vec3.length2 (p1 - (p2 + t • d2))

/-!
## Basic lemmas about the overlap test and the SAT loop
-/

theorem overlapOnAxis_eq (obb1 obb2 : OBB) (axis : Vec3) :
    overlapOnAxis obb1 obb2 axis =
      if sepAx obb1 obb2 axis then none else some (overlapLen obb1 obb2 axis) := by
  simp only [overlapOnAxis]
  exact if_congr Iff.rfl rfl rfl

theorem overlapOnAxis_eq_none_iff (obb1 obb2 : OBB) (axis : Vec3) :
    overlapOnAxis obb1 obb2 axis = none ↔ sepAx obb1 obb2 axis := by
  rw [overlapOnAxis_eq]
  split_ifs with h <;> simp [h]

theorem overlapOnAxis_of_not_sep (obb1 obb2 : OBB) (axis : Vec3)
    (h : ¬ sepAx obb1 obb2 axis) :
    overlapOnAxis obb1 obb2 axis = some (overlapLen obb1 obb2 axis) := by
  rw [overlapOnAxis_eq, if_neg h]

/-- The SAT loop hits the early `return false` exactly when some remaining
axis separates the boxes. -/
theorem satLoop_eq_none_iff (obb1 obb2 : OBB) (l : List Vec3) (i : ℤ) (m : ℝ)
    (sAxis : Vec3) (aType : ℤ) :
    satLoop obb1 obb2 l i m sAxis aType = none ↔ ∃ ax ∈ l, sepAx obb1 obb2 ax := by
  induction l generalizing i m sAxis aType with
  | nil => simp [satLoop]
  | cons a rest ih =>
    cases h : overlapOnAxis obb1 obb2 a with
    | none =>
      have hsep : sepAx obb1 obb2 a := (overlapOnAxis_eq_none_iff obb1 obb2 a).mp h
      simp only [satLoop, h]
      exact ⟨fun _ => ⟨a, List.mem_cons_self a rest, hsep⟩, fun _ => trivial⟩
    | some d =>
      have hns : ¬ sepAx obb1 obb2 a := by
        intro hs
        rw [(overlapOnAxis_eq_none_iff obb1 obb2 a).mpr hs] at h
        exact Option.noConfusion h
      simp only [satLoop, h]
      split_ifs with hlt
      · rw [ih]
        simp only [List.mem_cons]
        constructor
        · rintro ⟨ax, hax, hsep⟩; exact ⟨ax, Or.inr hax, hsep⟩
        · rintro ⟨ax, rfl | hax, hsep⟩
          · exact absurd hsep hns
          · exact ⟨ax, hax, hsep⟩
      · rw [ih]
        simp only [List.mem_cons]
        constructor
        · rintro ⟨ax, hax, hsep⟩; exact ⟨ax, Or.inr hax, hsep⟩
        · rintro ⟨ax, rfl | hax, hsep⟩
          · exact absurd hsep hns
          · exact ⟨ax, hax, hsep⟩

/-- Full characterization of a successful SAT loop run: the tracked minimum
is the fold of `min` over the overlap lengths, and either no axis ever beat
the incoming minimum (accumulator returned unchanged) or the tracked axis
and index are those of the first axis attaining the final minimum. -/
theorem satLoop_spec (obb1 obb2 : OBB) (l : List Vec3) (i : ℤ) (m : ℝ)
    (sAxis : Vec3) (aType : ℤ)
    (h : ∀ ax ∈ l, ¬ sepAx obb1 obb2 ax) :
    ∃ m2 sAxis2 aType2,
      satLoop obb1 obb2 l i m sAxis aType = some (m2, sAxis2, aType2) ∧
      m2 = List.foldl min m (l.map (overlapLen obb1 obb2)) ∧
      ((m2 = m ∧ sAxis2 = sAxis ∧ aType2 = aType) ∨
       (m2 < m ∧ ∃ k : ℕ, k < l.length ∧ aType2 = i + k ∧
          sAxis2 = l.getD k Vec3.zero ∧
          (l.map (overlapLen obb1 obb2)).getD k 0 = m2 ∧
          ∀ j < k, m2 < (l.map (overlapLen obb1 obb2)).getD j 0)) := by
  induction l generalizing i m sAxis aType with
  | nil => exact ⟨m, sAxis, aType, rfl, rfl, Or.inl ⟨rfl, rfl, rfl⟩⟩
  | cons a rest ih =>
    have hna : ¬ sepAx obb1 obb2 a := h a (List.mem_cons_self a rest)
    have hrest : ∀ ax ∈ rest, ¬ sepAx obb1 obb2 ax :=
      fun ax hax => h ax (List.mem_cons_of_mem a hax)
    simp only [satLoop, overlapOnAxis_of_not_sep obb1 obb2 a hna]
    set d := overlapLen obb1 obb2 a with hd
    split_ifs with hlt
    · -- the head strictly improves the running minimum
      obtain ⟨m2, sAxis2, aType2, heq, hm2, hdisj⟩ := ih (i + 1) d a i hrest
      refine ⟨m2, sAxis2, aType2, heq, ?_, ?_⟩
      · simp only [List.map_cons, List.foldl_cons, hm2]
        have : min m d = d := min_eq_right hlt.le
        rw [this]
      · rcases hdisj with ⟨h1, h2, h3⟩ | ⟨hm2lt, k, hk, ht, hs, hg, hall⟩
        · refine Or.inr ⟨h1 ▸ hlt, 0, by simp, by omega, by simp [h2], by simp [h1, hd], ?_⟩
          intro j hj; omega
        · refine Or.inr ⟨lt_trans hm2lt hlt, k + 1, by simpa using hk, by omega,
            by simpa using hs, by simpa using hg, ?_⟩
          intro j hj
          rcases Nat.eq_zero_or_pos j with rfl | hj0
          · simpa using hm2lt
          · obtain ⟨j0, rfl⟩ := Nat.exists_eq_add_of_lt hj0
            have := hall j0 (by omega)
            simpa [Nat.add_comm 1 j0] using this
    · -- the head does not improve the running minimum
      push_neg at hlt
      obtain ⟨m2, sAxis2, aType2, heq, hm2, hdisj⟩ := ih (i + 1) m sAxis aType hrest
      refine ⟨m2, sAxis2, aType2, heq, ?_, ?_⟩
      · simp only [List.map_cons, List.foldl_cons, hm2]
        have : min m d = m := min_eq_left hlt
        rw [this]
      · rcases hdisj with ⟨h1, h2, h3⟩ | ⟨hm2lt, k, hk, ht, hs, hg, hall⟩
        · exact Or.inl ⟨h1, h2, h3⟩
        · refine Or.inr ⟨hm2lt, k + 1, by simpa using hk, by omega,
            by simpa using hs, by simpa using hg, ?_⟩
          intro j hj
          rcases Nat.eq_zero_or_pos j with rfl | hj0
          · simp only [List.map_cons, List.getD]
            simpa using lt_of_lt_of_le hm2lt hlt
          · obtain ⟨j0, rfl⟩ := Nat.exists_eq_add_of_lt hj0
            have := hall j0 (by omega)
            simpa [Nat.add_comm 1 j0] using this

/-!
## Unfolding lemmas for `SATCollision`
-/

theorem SATCollision_eq_of_none (obb1 obb2 : OBB) (r : CollisionResult)
    (h : satLoop obb1 obb2 (buildTestAxes obb1 obb2) 0 fltMax Vec3.zero (-1) = none) :
    SATCollision obb1 obb2 r = (false, r) := by
  unfold SATCollision
  rw [h]

theorem SATCollision_eq_of_some (obb1 obb2 : OBB) (r : CollisionResult)
    (m2 : ℝ) (sAxis2 : Vec3) (aType2 : ℤ)
    (h : satLoop obb1 obb2 (buildTestAxes obb1 obb2) 0 fltMax Vec3.zero (-1) =
      some (m2, sAxis2, aType2)) :
    SATCollision obb1 obb2 r = (true,
      if 0 ≤ aType2 ∧ aType2 ≤ 5 then
        { r with
          collisionDetected := true
          penetrationDepth := m2
          collisionNormal := sAxis2
          collisionType := "vertex-face"
          contactPoint := vertexFaceCollision obb1 obb2 }
      else if 6 ≤ aType2 ∧ aType2 ≤ 14 then
        { r with
          collisionDetected := true
          penetrationDepth := m2
          collisionNormal := sAxis2
          collisionType := "edge-edge"
          contactPoint := edgeEdgeCollision obb1 obb2 }
      else
        { r with
          collisionDetected := true
          penetrationDepth := m2
          collisionNormal := sAxis2 }) := by
  unfold SATCollision
  rw [h]
  dsimp only
  split_ifs <;> rfl

/-- `SATCollision` returns `false` exactly when some candidate axis
separates the boxes. -/
theorem SATCollision_false_iff (obb1 obb2 : OBB) (r : CollisionResult) :
    (SATCollision obb1 obb2 r).1 = false ↔
      ∃ ax ∈ buildTestAxes obb1 obb2, sepAx obb1 obb2 ax := by
  rw [← satLoop_eq_none_iff obb1 obb2 (buildTestAxes obb1 obb2) 0 fltMax Vec3.zero (-1)]
  cases h : satLoop obb1 obb2 (buildTestAxes obb1 obb2) 0 fltMax Vec3.zero (-1) with
  | none => rw [SATCollision_eq_of_none obb1 obb2 r h]; simp
  | some trip =>
    obtain ⟨m2, sAxis2, aType2⟩ := trip
    rw [SATCollision_eq_of_some obb1 obb2 r m2 sAxis2 aType2 h]
    split_ifs <;> simp

/-- If the output's type tag is `"vertex-face"` and the input record did not
already carry that tag, the contact point was set by the vertex-face branch. -/
theorem SAT_contact_of_type_vf (obb1 obb2 : OBB) (r : CollisionResult)
    (h1 : (SATCollision obb1 obb2 r).1 = true)
    (h2 : (SATCollision obb1 obb2 r).2.collisionType = "vertex-face")
    (h3 : r.collisionType ≠ "vertex-face") :
    (SATCollision obb1 obb2 r).2.contactPoint = vertexFaceCollision obb1 obb2 := by
  cases h : satLoop obb1 obb2 (buildTestAxes obb1 obb2) 0 fltMax Vec3.zero (-1) with
  | none =>
    rw [SATCollision_eq_of_none obb1 obb2 r h] at h1
    exact absurd h1 (by simp)
  | some trip =>
    obtain ⟨m2, sAxis2, aType2⟩ := trip
    rw [SATCollision_eq_of_some obb1 obb2 r m2 sAxis2 aType2 h] at h2 ⊢
    split_ifs at h2 ⊢ with ha hb
    · rfl
    · exact absurd h2 (by simp)
    · exact absurd h2 h3

/-- If the output's type tag is `"edge-edge"` and the input record did not
already carry that tag, the contact point was set by the edge-edge branch. -/
theorem SAT_contact_of_type_ee (obb1 obb2 : OBB) (r : CollisionResult)
    (h1 : (SATCollision obb1 obb2 r).1 = true)
    (h2 : (SATCollision obb1 obb2 r).2.collisionType = "edge-edge")
    (h3 : r.collisionType ≠ "edge-edge") :
    (SATCollision obb1 obb2 r).2.contactPoint = edgeEdgeCollision obb1 obb2 := by
  cases h : satLoop obb1 obb2 (buildTestAxes obb1 obb2) 0 fltMax Vec3.zero (-1) with
  | none =>
    rw [SATCollision_eq_of_none obb1 obb2 r h] at h1
    exact absurd h1 (by simp)
  | some trip =>
    obtain ⟨m2, sAxis2, aType2⟩ := trip
    rw [SATCollision_eq_of_some obb1 obb2 r m2 sAxis2 aType2 h] at h2 ⊢
    split_ifs at h2 ⊢ with ha hb
    · exact absurd h2 (by simp)
    · rfl
    · exact absurd h2 h3

/-- Whatever branch runs, the reported depth is the tracked minimum. -/
theorem SAT_depth_eq (obb1 obb2 : OBB) (r : CollisionResult)
    (m2 : ℝ) (sAxis2 : Vec3) (aType2 : ℤ)
    (h : satLoop obb1 obb2 (buildTestAxes obb1 obb2) 0 fltMax Vec3.zero (-1) =
      some (m2, sAxis2, aType2)) :
    (SATCollision obb1 obb2 r).2.penetrationDepth = m2 := by
  rw [SATCollision_eq_of_some obb1 obb2 r m2 sAxis2 aType2 h]
  split_ifs <;> rfl

/-!
## A generic strict-improvement minimum scan

Both `vertexFaceCollision` and `findClosestEdges` are folds of the shape
`if P x ∧ f x < acc.2 then (g x, f x) else acc`; their properties are proved
once here.
-/

theorem minScan_spec {α β : Type _} (P : α → Prop) (f : α → ℝ) (g : α → β)
    (step : β × ℝ → α → β × ℝ)
    (hstep : ∀ acc x, step acc x = if P x ∧ f x < acc.2 then (g x, f x) else acc)
    (l : List α) (acc : β × ℝ) :
    (l.foldl step acc = acc ∨ ∃ x ∈ l, P x ∧ l.foldl step acc = (g x, f x)) ∧
    (l.foldl step acc).2 ≤ acc.2 ∧
    ∀ x ∈ l, P x → (l.foldl step acc).2 ≤ f x := by
  induction l generalizing acc with
  | nil => simp
  | cons a rest ih =>
    simp only [List.foldl_cons]
    by_cases hc : P a ∧ f a < acc.2
    · rw [hstep, if_pos hc]
      obtain ⟨h1, h2, h3⟩ := ih (g a, f a)
      refine ⟨?_, le_trans h2 hc.2.le, ?_⟩
      · rcases h1 with heq | ⟨x, hx, hPx, heq⟩
        · exact Or.inr ⟨a, List.mem_cons_self a rest, hc.1, heq⟩
        · exact Or.inr ⟨x, List.mem_cons_of_mem a hx, hPx, heq⟩
      · intro x hx hPx
        rcases List.mem_cons.mp hx with rfl | hx
        · exact h2
        · exact h3 x hx hPx
    · rw [hstep, if_neg hc]
      obtain ⟨h1, h2, h3⟩ := ih acc
      refine ⟨?_, h2, ?_⟩
      · rcases h1 with heq | ⟨x, hx, hPx, heq⟩
        · exact Or.inl heq
        · exact Or.inr ⟨x, List.mem_cons_of_mem a hx, hPx, heq⟩
      · intro x hx hPx
        rcases List.mem_cons.mp hx with rfl | hx
        · have : ¬ f x < acc.2 := fun hlt => hc ⟨hPx, hlt⟩
          exact le_trans h2 (not_lt.mp this)
        · exact h3 x hx hPx

/-- If some qualifying element beats the initial minimum, the scan returns a
qualifying element of minimal score. -/
theorem minScan_found {α β : Type _} (P : α → Prop) (f : α → ℝ) (g : α → β)
    (step : β × ℝ → α → β × ℝ)
    (hstep : ∀ acc x, step acc x = if P x ∧ f x < acc.2 then (g x, f x) else acc)
    (l : List α) (acc : β × ℝ)
    (hex : ∃ x ∈ l, P x ∧ f x < acc.2) :
    ∃ x ∈ l, P x ∧ l.foldl step acc = (g x, f x) ∧
      ∀ y ∈ l, P y → f x ≤ f y := by
  obtain ⟨h1, h2, h3⟩ := minScan_spec P f g step hstep l acc
  obtain ⟨x0, hx0, hP0, hlt0⟩ := hex
  rcases h1 with heq | ⟨x, hx, hPx, heq⟩
  · exfalso
    have := h3 x0 hx0 hP0
    rw [heq] at this
    exact absurd (lt_of_le_of_lt this hlt0) (lt_irrefl _)
  · refine ⟨x, hx, hPx, heq, fun y hy hPy => ?_⟩
    have := h3 y hy hPy
    rw [heq] at this
    exact this

/-- If no element qualifies, the scan returns the initial accumulator. -/
theorem minScan_none {α β : Type _} (P : α → Prop) (f : α → ℝ) (g : α → β)
    (step : β × ℝ → α → β × ℝ)
    (hstep : ∀ acc x, step acc x = if P x ∧ f x < acc.2 then (g x, f x) else acc)
    (l : List α) (acc : β × ℝ)
    (hnone : ∀ x ∈ l, ¬ P x) : l.foldl step acc = acc := by
  induction l generalizing acc with
  | nil => rfl
  | cons a rest ih =>
    simp only [List.foldl_cons]
    rw [hstep, if_neg (fun hc => hnone a (List.mem_cons_self a rest) hc.1)]
    exact ih acc (fun x hx => hnone x (List.mem_cons_of_mem a hx))

/-- Folding over a `flatMap`-of-`map` iteration domain is the nested fold. -/
theorem foldl_flatMap_map {α β γ δ : Type _} (l1 : List α) (l2 : List β)
    (mk : α → β → γ) (step : δ → γ → δ) (acc : δ) :
    (l1.flatMap fun x => l2.map fun y => mk x y).foldl step acc
      = l1.foldl (fun a x => l2.foldl (fun a2 y => step a2 (mk x y)) a) acc := by
  induction l1 generalizing acc with
  | nil => rfl
  | cons a rest ih =>
    simp only [List.flatMap_cons, List.foldl_cons, List.foldl_append, List.foldl_map]
    rw [ih]

/-- A single `vertexFaceCollision` check is a `minScan` step for the
qualification predicate and absolute plane distance of the claims. -/
theorem vfCheck_eq_step (acc : Vec3 × ℝ) (c : OBB × Vec3 × Fin 3) :
    vfCheck c.1 c.2.1 c.2.2 acc =
      if candQual c ∧ candDist c < acc.2 then (candVert c, candDist c) else acc := by
  simp only [vfCheck, candQual, candDist, candVert, candSigned]
  split_ifs with h1 h2 <;> first | rfl | tauto

/-- `vertexFaceCollision` is the flat minimum scan over `vfCands`. -/
theorem vertexFaceCollision_eq_scan (obb1 obb2 : OBB) :
    vertexFaceCollision obb1 obb2 =
      ((vfCands obb1 obb2).foldl (fun acc c => vfCheck c.1 c.2.1 c.2.2 acc)
        (Vec3.zero, fltMax)).1 := by
  unfold vertexFaceCollision vfCands
  rw [List.foldl_append,
    foldl_flatMap_map (obb1.getVertices) faceIdxList (fun v i => (obb2, v, i)),
    foldl_flatMap_map (obb2.getVertices) faceIdxList (fun v i => (obb1, v, i))]

/-- `findClosestEdges` is the flat minimum scan over `edgePairs`. -/
theorem findClosestEdges_eq_scan (obb1 obb2 : OBB) :
    findClosestEdges obb1 obb2 =
      ((edgePairs obb1 obb2).foldl
        (fun acc pr => if pairSqDist pr < acc.2 then (pr, pairSqDist pr) else acc)
        (((Vec3.zero, Vec3.zero), (Vec3.zero, Vec3.zero)), fltMax)).1 := by
  unfold findClosestEdges edgePairs
  rw [foldl_flatMap_map (obb1.getEdges) (obb2.getEdges) (fun e1 e2 => (e1, e2))]
  rfl

/-- The vertex of any candidate is a vertex of one of the two boxes. -/
theorem vfCands_vert_mem (obb1 obb2 : OBB) (c : OBB × Vec3 × Fin 3)
    (hc : c ∈ vfCands obb1 obb2) :
    candVert c ∈ obb1.getVertices ∨ candVert c ∈ obb2.getVertices := by
  unfold vfCands at hc
  rcases List.mem_append.mp hc with h | h
  · obtain ⟨v, hv, hm⟩ := List.mem_flatMap.mp h
    obtain ⟨i, _, rfl⟩ := List.mem_map.mp hm
    exact Or.inl hv
  · obtain ⟨v, hv, hm⟩ := List.mem_flatMap.mp h
    obtain ⟨i, _, rfl⟩ := List.mem_map.mp hm
    exact Or.inr hv

/-- The two edges of any scanned pair are edges of the respective boxes. -/
theorem edgePairs_mem (obb1 obb2 : OBB) (pr : (Vec3 × Vec3) × (Vec3 × Vec3))
    (hpr : pr ∈ edgePairs obb1 obb2) :
    pr.1 ∈ obb1.getEdges ∧ pr.2 ∈ obb2.getEdges := by
  unfold edgePairs at hpr
  obtain ⟨e1, he1, hm⟩ := List.mem_flatMap.mp hpr
  obtain ⟨e2, he2, rfl⟩ := List.mem_map.mp hm
  exact ⟨he1, he2⟩

/-!
## Clamp and segment-membership facts
-/

theorem clamp_mem (x lo hi : ℝ) (h : lo ≤ hi) :
    lo ≤ clamp x lo hi ∧ clamp x lo hi ≤ hi :=
  ⟨le_min (le_max_right x lo) h, min_le_right _ _⟩

/-- `x` lies on the closed segment from `a` to `b`. -/
def onSegment (a b x : Vec3) : Prop :=
  ∃ u : ℝ, 0 ≤ u ∧ u ≤ 1 ∧ x = a + u • (b - a)

theorem eq_add_zero_smul (a b : Vec3) : a = a + (0 : ℝ) • (b - a) := by
  ext <;> simp

/-- Whatever branch `closestPointBetweenLines` takes, it returns a point of
one of the two segments (every produced parameter is `0` or a clamp to
`[0,1]`). -/
theorem closestPointBetweenLines_onSegment (p1 q1 p2 q2 : Vec3) :
    onSegment p1 q1 (closestPointBetweenLines p1 q1 p2 q2) ∨
    onSegment p2 q2 (closestPointBetweenLines p1 q1 p2 q2) := by
  simp only [closestPointBetweenLines]
  split_ifs <;>
    first
      | exact Or.inl ⟨0, le_rfl, zero_le_one, eq_add_zero_smul p1 q1⟩
      | exact Or.inl ⟨0, le_rfl, zero_le_one, rfl⟩
      | exact Or.inr ⟨0, le_rfl, zero_le_one, rfl⟩
      | exact Or.inl ⟨_, (clamp_mem _ 0 1 zero_le_one).1,
          (clamp_mem _ 0 1 zero_le_one).2, rfl⟩
      | exact Or.inr ⟨_, (clamp_mem _ 0 1 zero_le_one).1,
          (clamp_mem _ 0 1 zero_le_one).2, rfl⟩

/-!
## Symmetry of the axis set, projections and overlap lengths
-/

theorem Vec3.dot_neg_right (a b : Vec3) : Vec3.dot a (-b) = -(Vec3.dot a b) := by
  simp only [Vec3.neg_def, Vec3.dot]
  ring

theorem Vec3.cross_anticomm (a b : Vec3) : Vec3.cross a b = -(Vec3.cross b a) := by
  simp only [Vec3.cross, Vec3.neg_def]
  ext <;> (dsimp only; ring)

theorem Vec3.dot_neg_neg (a : Vec3) : Vec3.dot (-a) (-a) = Vec3.dot a a := by
  simp only [Vec3.neg_def, Vec3.dot]
  ring

theorem Vec3.length_neg (a : Vec3) : Vec3.length (-a) = Vec3.length a := by
  simp only [Vec3.length]
  rw [Vec3.dot_neg_neg]

theorem Vec3.normalize_neg (a : Vec3) : Vec3.normalize (-a) = -(Vec3.normalize a) := by
  simp only [Vec3.normalize]
  rw [Vec3.length_neg]
  simp only [Vec3.neg_def, Vec3.smul_def]
  ext <;> (dsimp only; ring)

theorem Vec3.neg_neg (a : Vec3) : -(-a) = a := by
  simp only [Vec3.neg_def]
  ext <;> (dsimp only; ring)

theorem abs_dot_neg_right (a b : Vec3) : |Vec3.dot a (-b)| = |Vec3.dot a b| := by
  rw [Vec3.dot_neg_right, abs_neg]

/-- Projecting onto the negated axis mirrors the interval. -/
theorem projectOBB_neg (o : OBB) (ax : Vec3) :
    projectOBB o (-ax) = (-(projectOBB o ax).2, -(projectOBB o ax).1) := by
  simp only [projectOBB, abs_dot_neg_right, Vec3.dot_neg_right, abs_neg, Prod.mk.injEq]
  constructor <;> ring

theorem sepAx_symm (obb1 obb2 : OBB) (ax : Vec3) :
    sepAx obb1 obb2 ax ↔ sepAx obb2 obb1 ax := or_comm

theorem sepAx_neg (obb1 obb2 : OBB) (ax : Vec3) :
    sepAx obb1 obb2 (-ax) ↔ sepAx obb1 obb2 ax := by
  unfold sepAx
  rw [projectOBB_neg, projectOBB_neg]
  dsimp only
  constructor
  · rintro (h | h)
    · exact Or.inr (by linarith)
    · exact Or.inl (by linarith)
  · rintro (h | h)
    · exact Or.inr (by linarith)
    · exact Or.inl (by linarith)

theorem overlapLen_symm (obb1 obb2 : OBB) (ax : Vec3) :
    overlapLen obb1 obb2 ax = overlapLen obb2 obb1 ax := by
  unfold overlapLen
  rw [min_comm, max_comm]

theorem overlapLen_neg (obb1 obb2 : OBB) (ax : Vec3) :
    overlapLen obb1 obb2 (-ax) = overlapLen obb1 obb2 ax := by
  unfold overlapLen
  rw [projectOBB_neg, projectOBB_neg]
  simp only [min_neg_neg, max_neg_neg]
  ring

/-- The kept cross axis of `(obb2, obb1)` at pair `p` is the negation of the
kept cross axis of `(obb1, obb2)` at the swapped pair. -/
theorem crossKeep_swap (obb1 obb2 : OBB) (p : Fin 3 × Fin 3) :
    (fun p : Fin 3 × Fin 3 =>
      let crossAxis := Vec3.cross (obb2.axes p.1) (obb1.axes p.2)
      if Vec3.length crossAxis > 1e-6 then some (Vec3.normalize crossAxis) else none) p
    = Option.map Neg.neg
      ((fun p : Fin 3 × Fin 3 =>
        let crossAxis := Vec3.cross (obb1.axes p.1) (obb2.axes p.2)
        if Vec3.length crossAxis > 1e-6 then some (Vec3.normalize crossAxis) else none)
        p.swap) := by
  dsimp only [Prod.fst_swap, Prod.snd_swap]
  rw [Vec3.cross_anticomm (obb2.axes p.1) (obb1.axes p.2), Vec3.length_neg,
    Vec3.normalize_neg]
  split_ifs <;> rfl

/-- The swapped-argument overlap-length list is a permutation of the
original one. -/
theorem depthList_swap_perm (obb1 obb2 : OBB) :
    (depthList obb2 obb1).Perm (depthList obb1 obb2) := by
  unfold depthList buildTestAxes
  rw [List.map_append, List.map_append]
  refine List.Perm.append ?_ ?_
  · -- the six face axes: the two blocks swap
    have h : ∀ ax : Vec3, overlapLen obb2 obb1 ax = overlapLen obb1 obb2 ax :=
      fun ax => overlapLen_symm obb2 obb1 ax
    simp only [List.map_cons, List.map_nil, h]
    exact @List.perm_append_comm _
      [overlapLen obb1 obb2 (obb2.axes 0), overlapLen obb1 obb2 (obb2.axes 1),
        overlapLen obb1 obb2 (obb2.axes 2)]
      [overlapLen obb1 obb2 (obb1.axes 0), overlapLen obb1 obb2 (obb1.axes 1),
        overlapLen obb1 obb2 (obb1.axes 2)]
  · -- the cross axes: transpose of the index pairs, axes negated
    unfold crossAxes
    rw [List.map_filterMap, List.map_filterMap]
    have h1 : (axisPairs.filterMap fun p =>
        (((fun p : Fin 3 × Fin 3 =>
          let crossAxis := Vec3.cross (obb2.axes p.1) (obb1.axes p.2)
          if Vec3.length crossAxis > 1e-6 then some (Vec3.normalize crossAxis)
          else none) p).map (overlapLen obb2 obb1)))
        = axisPairs.filterMap fun p =>
          (((fun p : Fin 3 × Fin 3 =>
            let crossAxis := Vec3.cross (obb1.axes p.1) (obb2.axes p.2)
            if Vec3.length crossAxis > 1e-6 then some (Vec3.normalize crossAxis)
            else none) p.swap).map (overlapLen obb1 obb2)) := by
      refine List.filterMap_congr ?_
      intro p _
      rw [crossKeep_swap obb1 obb2 p, Option.map_map]
      refine congrFun (congrArg Option.map ?_) _
      funext v
      simp only [Function.comp_apply]
      rw [overlapLen_symm obb2 obb1, overlapLen_neg]
    rw [h1]
    have h2 : (axisPairs.filterMap fun p =>
        (((fun p : Fin 3 × Fin 3 =>
          let crossAxis := Vec3.cross (obb1.axes p.1) (obb2.axes p.2)
          if Vec3.length crossAxis > 1e-6 then some (Vec3.normalize crossAxis)
          else none) p.swap).map (overlapLen obb1 obb2)))
        = (axisPairs.map Prod.swap).filterMap fun p =>
          (((fun p : Fin 3 × Fin 3 =>
            let crossAxis := Vec3.cross (obb1.axes p.1) (obb2.axes p.2)
            if Vec3.length crossAxis > 1e-6 then some (Vec3.normalize crossAxis)
            else none) p).map (overlapLen obb1 obb2)) := by
      rw [List.filterMap_map]
      rfl
    rw [h2]
    have hperm : (axisPairs.map Prod.swap).Perm axisPairs := by decide
    exact hperm.filterMap _

theorem axisPairs_swap_mem : ∀ p ∈ axisPairs, p.swap ∈ axisPairs := by decide

/-- Every candidate axis of the swapped call is, up to sign, a candidate
axis of the original call. -/
theorem buildTestAxes_mem_swap (obb1 obb2 : OBB) (ax : Vec3)
    (h : ax ∈ buildTestAxes obb1 obb2) :
    ∃ ax2 ∈ buildTestAxes obb2 obb1, ax = ax2 ∨ ax = -ax2 := by
  unfold buildTestAxes at h
  rcases List.mem_append.mp h with h | h
  · refine ⟨ax, ?_, Or.inl rfl⟩
    unfold buildTestAxes
    refine List.mem_append_left _ ?_
    simp only [List.mem_cons, List.not_mem_nil, or_false] at h ⊢
    tauto
  · simp only [crossAxes, List.mem_filterMap] at h
    obtain ⟨p, hp, heq⟩ := h
    split_ifs at heq with hlen
    · replace heq := Option.some.inj heq
      refine ⟨Vec3.normalize (Vec3.cross (obb2.axes p.2) (obb1.axes p.1)), ?_, Or.inr ?_⟩
      · unfold buildTestAxes
        refine List.mem_append_right _ ?_
        simp only [crossAxes, List.mem_filterMap]
        refine ⟨p.swap, axisPairs_swap_mem p hp, ?_⟩
        simp only [Prod.fst_swap, Prod.snd_swap]
        rw [if_pos]
        rw [Vec3.cross_anticomm (obb2.axes p.2) (obb1.axes p.1), Vec3.length_neg]
        exact hlen
      · rw [← heq, Vec3.cross_anticomm (obb2.axes p.2) (obb1.axes p.1),
          Vec3.normalize_neg]
        exact (Vec3.neg_neg _).symm

/-- A separating axis exists for `(obb1, obb2)` iff one exists for the
swapped call. -/
theorem sepEx_swap (obb1 obb2 : OBB) :
    (∃ ax ∈ buildTestAxes obb1 obb2, sepAx obb1 obb2 ax) ↔
    (∃ ax ∈ buildTestAxes obb2 obb1, sepAx obb2 obb1 ax) := by
  constructor
  · rintro ⟨ax, hax, hsep⟩
    obtain ⟨ax2, hax2, heq | heq⟩ := buildTestAxes_mem_swap obb1 obb2 ax hax
    · rw [heq] at hsep
      exact ⟨ax2, hax2, (sepAx_symm obb1 obb2 ax2).mp hsep⟩
    · rw [heq] at hsep
      exact ⟨ax2, hax2,
        (sepAx_symm obb1 obb2 ax2).mp ((sepAx_neg obb1 obb2 ax2).mp hsep)⟩
  · rintro ⟨ax, hax, hsep⟩
    obtain ⟨ax2, hax2, heq | heq⟩ := buildTestAxes_mem_swap obb2 obb1 ax hax
    · rw [heq] at hsep
      exact ⟨ax2, hax2, (sepAx_symm obb2 obb1 ax2).mp hsep⟩
    · rw [heq] at hsep
      exact ⟨ax2, hax2,
        (sepAx_symm obb2 obb1 ax2).mp ((sepAx_neg obb2 obb1 ax2).mp hsep)⟩

/-- On the success path the boolean is `true`, whatever branch runs. -/
theorem SAT_fst_true_of_some (obb1 obb2 : OBB) (r : CollisionResult)
    (m2 : ℝ) (sAxis2 : Vec3) (aType2 : ℤ)
    (h : satLoop obb1 obb2 (buildTestAxes obb1 obb2) 0 fltMax Vec3.zero (-1) =
      some (m2, sAxis2, aType2)) :
    (SATCollision obb1 obb2 r).1 = true := by
  rw [SATCollision_eq_of_some obb1 obb2 r m2 sAxis2 aType2 h]

/-!
## Concrete inputs used by the example claims, witnesses and counterexamples
-/

/-- The world-aligned frame. -/
def stdAxes : Fin 3 → Vec3
  | ⟨0, _⟩ => ⟨1, 0, 0⟩
  | ⟨1, _⟩ => ⟨0, 1, 0⟩
  | ⟨2, _⟩ => ⟨0, 0, 1⟩

@[simp] theorem stdAxes_zero : stdAxes 0 = ⟨1, 0, 0⟩ := rfl
@[simp] theorem stdAxes_one : stdAxes 1 = ⟨0, 1, 0⟩ := rfl
@[simp] theorem stdAxes_two : stdAxes 2 = ⟨0, 0, 1⟩ := rfl
@[simp] theorem stdAxes_three : stdAxes 3 = ⟨1, 0, 0⟩ := rfl
@[simp] theorem stdAxes_four : stdAxes 4 = ⟨0, 1, 0⟩ := rfl

@[simp] theorem fin3_zero_add_one : (0 : Fin 3) + 1 = 1 := rfl
@[simp] theorem fin3_zero_add_two : (0 : Fin 3) + 2 = 2 := rfl
@[simp] theorem fin3_one_add_one : (1 : Fin 3) + 1 = 2 := rfl
@[simp] theorem fin3_one_add_two : (1 : Fin 3) + 2 = 0 := rfl
@[simp] theorem fin3_two_add_one : (2 : Fin 3) + 1 = 0 := rfl
@[simp] theorem fin3_two_add_two : (2 : Fin 3) + 2 = 1 := rfl

/-- Unit cube at the origin (spec example, box A). -/
def obbA : OBB := ⟨⟨0, 0, 0⟩, ⟨1, 1, 1⟩, stdAxes⟩

/-- Unit cube at `(1.5, 0, 0)` (spec example, box B). -/
def obbB : OBB := ⟨⟨1.5, 0, 0⟩, ⟨1, 1, 1⟩, stdAxes⟩

/-- Unit cube at `(2, 0, 0)`: touches `obbA` exactly face to face. -/
def obbTouch : OBB := ⟨⟨2, 0, 0⟩, ⟨1, 1, 1⟩, stdAxes⟩

/-- Unit cube at `(5, 0, 0)`: separated from `obbA`. -/
def obbFar : OBB := ⟨⟨5, 0, 0⟩, ⟨1, 1, 1⟩, stdAxes⟩

/-- Axis-aligned cube with half-extents `FLT_MAX`. -/
def bigBox : OBB := ⟨⟨0, 0, 0⟩, ⟨fltMax, fltMax, fltMax⟩, stdAxes⟩

/-- Axis-aligned cube with half-extents 10 at the origin. -/
def obbOuter : OBB := ⟨⟨0, 0, 0⟩, ⟨10, 10, 10⟩, stdAxes⟩

/-- Unit cube at `(5, 5, 5)`, fully inside `obbOuter`, in its positive
octant. -/
def obbInner : OBB := ⟨⟨5, 5, 5⟩, ⟨1, 1, 1⟩, stdAxes⟩

/-- For two world-aligned boxes the candidate axis list has the six unit
face axes followed by the six non-degenerate normalized cross products. -/
theorem buildTestAxes_std (c1 h1 c2 h2 : Vec3) :
    buildTestAxes ⟨c1, h1, stdAxes⟩ ⟨c2, h2, stdAxes⟩ =
      [⟨1, 0, 0⟩, ⟨0, 1, 0⟩, ⟨0, 0, 1⟩, ⟨1, 0, 0⟩, ⟨0, 1, 0⟩, ⟨0, 0, 1⟩,
       ⟨0, 0, 1⟩, ⟨0, -1, 0⟩, ⟨0, 0, -1⟩, ⟨1, 0, 0⟩, ⟨0, 1, 0⟩, ⟨-1, 0, 0⟩] := by
  unfold buildTestAxes crossAxes axisPairs
  norm_num [Vec3.cross, Vec3.length, Vec3.normalize, Vec3.dot,
    List.filterMap_cons, Real.sqrt_zero, Real.sqrt_one]

theorem satLoop_AB :
    satLoop obbA obbB (buildTestAxes obbA obbB) 0 fltMax Vec3.zero (-1) =
      some (1 / 2, ⟨1, 0, 0⟩, 0) := by
  unfold obbA obbB
  rw [buildTestAxes_std]
  norm_num [satLoop, overlapOnAxis, projectOBB, Vec3.dot, fltMax]

theorem satAB (r : CollisionResult) :
    SATCollision obbA obbB r = (true,
      { r with
        collisionDetected := true
        penetrationDepth := 1 / 2
        collisionNormal := ⟨1, 0, 0⟩
        collisionType := "vertex-face"
        contactPoint := vertexFaceCollision obbA obbB }) := by
  rw [SATCollision_eq_of_some obbA obbB r (1 / 2) ⟨1, 0, 0⟩ 0 satLoop_AB]
  rw [if_pos (by norm_num : (0 : ℤ) ≤ 0 ∧ (0 : ℤ) ≤ 5)]

theorem satLoop_big :
    satLoop bigBox bigBox (buildTestAxes bigBox bigBox) 0 fltMax Vec3.zero (-1) =
      some (fltMax, Vec3.zero, -1) := by
  unfold bigBox
  rw [buildTestAxes_std]
  norm_num [satLoop, overlapOnAxis, projectOBB, Vec3.dot, fltMax, Vec3.zero]

theorem satBig (r : CollisionResult) :
    SATCollision bigBox bigBox r = (true,
      { r with
        collisionDetected := true
        penetrationDepth := fltMax
        collisionNormal := Vec3.zero }) := by
  rw [SATCollision_eq_of_some bigBox bigBox r fltMax Vec3.zero (-1) satLoop_big]
  rw [if_neg (by norm_num : ¬((0 : ℤ) ≤ -1 ∧ (-1 : ℤ) ≤ 5)),
    if_neg (by norm_num : ¬((6 : ℤ) ≤ -1 ∧ (-1 : ℤ) ≤ 14))]

theorem satLoop_OI :
    satLoop obbOuter obbInner (buildTestAxes obbOuter obbInner) 0 fltMax Vec3.zero (-1) =
      some (2, ⟨1, 0, 0⟩, 0) := by
  unfold obbOuter obbInner
  rw [buildTestAxes_std]
  norm_num [satLoop, overlapOnAxis, projectOBB, Vec3.dot, fltMax]

theorem satOI (r : CollisionResult) :
    SATCollision obbOuter obbInner r = (true,
      { r with
        collisionDetected := true
        penetrationDepth := 2
        collisionNormal := ⟨1, 0, 0⟩
        collisionType := "vertex-face"
        contactPoint := vertexFaceCollision obbOuter obbInner }) := by
  rw [SATCollision_eq_of_some obbOuter obbInner r 2 ⟨1, 0, 0⟩ 0 satLoop_OI]
  rw [if_pos (by norm_num : (0 : ℤ) ≤ 0 ∧ (0 : ℤ) ≤ 5)]

theorem obbOuter_vertices : obbOuter.getVertices =
    [⟨10, 10, 10⟩, ⟨10, 10, -10⟩, ⟨10, -10, 10⟩, ⟨10, -10, -10⟩,
     ⟨-10, 10, 10⟩, ⟨-10, 10, -10⟩, ⟨-10, -10, 10⟩, ⟨-10, -10, -10⟩] := by
  unfold obbOuter OBB.getVertices
  norm_num

theorem obbInner_vertices : obbInner.getVertices =
    [⟨6, 6, 6⟩, ⟨6, 6, 4⟩, ⟨6, 4, 6⟩, ⟨6, 4, 4⟩,
     ⟨4, 6, 6⟩, ⟨4, 6, 4⟩, ⟨4, 4, 6⟩, ⟨4, 4, 4⟩] := by
  unfold obbInner OBB.getVertices
  norm_num

theorem obbB_vertices : obbB.getVertices =
    [⟨2.5, 1, 1⟩, ⟨2.5, 1, -1⟩, ⟨2.5, -1, 1⟩, ⟨2.5, -1, -1⟩,
     ⟨0.5, 1, 1⟩, ⟨0.5, 1, -1⟩, ⟨0.5, -1, 1⟩, ⟨0.5, -1, -1⟩] := by
  unfold obbB OBB.getVertices
  norm_num

theorem bigBox_vertices : bigBox.getVertices =
    [⟨fltMax, fltMax, fltMax⟩, ⟨fltMax, fltMax, -fltMax⟩,
     ⟨fltMax, -fltMax, fltMax⟩, ⟨fltMax, -fltMax, -fltMax⟩,
     ⟨-fltMax, fltMax, fltMax⟩, ⟨-fltMax, fltMax, -fltMax⟩,
     ⟨-fltMax, -fltMax, fltMax⟩, ⟨-fltMax, -fltMax, -fltMax⟩] := by
  unfold bigBox OBB.getVertices
  norm_num

theorem bigBox_edges : bigBox.getEdges =
    [ (⟨fltMax, fltMax, fltMax⟩, ⟨fltMax, fltMax, -fltMax⟩)
    , (⟨fltMax, -fltMax, fltMax⟩, ⟨fltMax, -fltMax, -fltMax⟩)
    , (⟨-fltMax, fltMax, fltMax⟩, ⟨-fltMax, fltMax, -fltMax⟩)
    , (⟨-fltMax, -fltMax, fltMax⟩, ⟨-fltMax, -fltMax, -fltMax⟩)
    , (⟨fltMax, fltMax, fltMax⟩, ⟨fltMax, -fltMax, fltMax⟩)
    , (⟨fltMax, fltMax, -fltMax⟩, ⟨fltMax, -fltMax, -fltMax⟩)
    , (⟨-fltMax, fltMax, fltMax⟩, ⟨-fltMax, -fltMax, fltMax⟩)
    , (⟨-fltMax, fltMax, -fltMax⟩, ⟨-fltMax, -fltMax, -fltMax⟩)
    , (⟨fltMax, fltMax, fltMax⟩, ⟨-fltMax, fltMax, fltMax⟩)
    , (⟨fltMax, fltMax, -fltMax⟩, ⟨-fltMax, fltMax, -fltMax⟩)
    , (⟨fltMax, -fltMax, fltMax⟩, ⟨-fltMax, -fltMax, fltMax⟩)
    , (⟨fltMax, -fltMax, -fltMax⟩, ⟨-fltMax, -fltMax, -fltMax⟩) ] := by
  unfold OBB.getEdges
  rw [bigBox_vertices]

/-- No vertex of either box qualifies for the `obbOuter` / `obbInner` pair:
`obbInner` sits in the positive octant of `obbOuter` (all signed distances
positive) and `obbOuter`'s vertices fall outside `obbInner`'s face bounds. -/
theorem noqual_OI : ∀ c ∈ vfCands obbOuter obbInner, ¬ candQual c := by
  intro c hc
  unfold vfCands faceIdxList at hc
  rw [obbOuter_vertices, obbInner_vertices] at hc
  simp only [List.flatMap_cons, List.flatMap_nil, List.map_cons, List.map_nil,
    List.append_nil, List.cons_append, List.nil_append] at hc
  fin_cases hc <;>
    norm_num [candQual, candSigned, signedDistanceToPlane, isPointInFaceBounds,
      Vec3.dot, Vec3.nth, obbOuter, obbInner]

theorem vfc_OI : vertexFaceCollision obbOuter obbInner = Vec3.zero := by
  rw [vertexFaceCollision_eq_scan]
  rw [minScan_none candQual candDist candVert _ vfCheck_eq_step
    (vfCands obbOuter obbInner) (Vec3.zero, fltMax) noqual_OI]

/-- A qualifying candidate with small distance exists for `obbA` / `obbB`:
`obbB`'s vertex `(0.5, -1, 1)` penetrates `obbA`'s `y`-face slab. -/
theorem qual_AB : ∃ c ∈ vfCands obbA obbB, candQual c ∧ candDist c < fltMax := by
  refine ⟨(obbA, ⟨0.5, -1, 1⟩, 1), ?_, ?_, ?_⟩
  · unfold vfCands
    refine List.mem_append_right _ ?_
    rw [List.mem_flatMap]
    refine ⟨⟨0.5, -1, 1⟩, ?_, ?_⟩
    · rw [obbB_vertices]
      simp
    · simp [faceIdxList]
  · norm_num [candQual, candSigned, signedDistanceToPlane, isPointInFaceBounds,
      Vec3.dot, Vec3.nth, obbA]
    rw [abs_of_pos (by norm_num : (0 : ℝ) < 1 / 2)]
    norm_num
  · norm_num [candDist, candSigned, signedDistanceToPlane, Vec3.dot, obbA, fltMax]

theorem nosep_ATouch : ∀ ax ∈ buildTestAxes obbA obbTouch, ¬ sepAx obbA obbTouch ax := by
  unfold obbA obbTouch
  rw [buildTestAxes_std]
  intro ax hax
  fin_cases hax <;> norm_num [sepAx, projectOBB, Vec3.dot]

theorem touch_ATouch : ∃ ax ∈ buildTestAxes obbA obbTouch,
    (projectOBB obbA ax).2 = (projectOBB obbTouch ax).1 ∨
    (projectOBB obbTouch ax).2 = (projectOBB obbA ax).1 := by
  refine ⟨⟨1, 0, 0⟩, ?_, Or.inl ?_⟩
  · unfold obbA obbTouch
    rw [buildTestAxes_std]
    simp
  · norm_num [projectOBB, Vec3.dot, obbA, obbTouch]

theorem sep_AFar : ∃ ax ∈ buildTestAxes obbA obbFar, sepAx obbA obbFar ax := by
  refine ⟨⟨1, 0, 0⟩, ?_, ?_⟩
  · unfold obbA obbFar
    rw [buildTestAxes_std]
    simp
  · norm_num [sepAx, projectOBB, Vec3.dot, obbA, obbFar]

theorem foldl_depth_AB : List.foldl min fltMax (depthList obbA obbB) = 1 / 2 := by
  unfold depthList obbA obbB
  rw [buildTestAxes_std]
  norm_num [overlapLen, projectOBB, Vec3.dot, fltMax, min_def]

theorem depthList_big : ∀ d ∈ depthList bigBox bigBox, d = 2 * fltMax := by
  unfold depthList bigBox
  rw [buildTestAxes_std]
  intro d hd
  fin_cases hd <;>
    norm_num [overlapLen, projectOBB, Vec3.dot, fltMax, min_def, max_def]

theorem buildTestAxes_big_length : (buildTestAxes bigBox bigBox).length = 12 := by
  unfold bigBox
  rw [buildTestAxes_std]
  rfl

/-- Sentinel result records for the counterexamples. -/
def rSentA : CollisionResult := { CollisionResult.default with contactPoint := ⟨7, 7, 7⟩ }

def rSentB : CollisionResult := { CollisionResult.default with contactPoint := ⟨8, 8, 8⟩ }

def rEE : CollisionResult := { CollisionResult.default with collisionType := "edge-edge" }

/-!
## Facts about folded minima and overlap signs
-/

theorem foldl_min_le_init (l : List ℝ) (a : ℝ) : List.foldl min a l ≤ a := by
  induction l generalizing a with
  | nil => exact le_rfl
  | cons b rest ih => exact le_trans (ih (min a b)) (min_le_left a b)

theorem foldl_min_le_mem {l : List ℝ} {x : ℝ} (a : ℝ) (hx : x ∈ l) :
    List.foldl min a l ≤ x := by
  induction l generalizing a with
  | nil => cases hx
  | cons b rest ih =>
    rcases List.mem_cons.mp hx with rfl | hx
    · exact le_trans (foldl_min_le_init rest (min a x)) (min_le_right a x)
    · exact ih (min a b) hx

theorem le_foldl_min {l : List ℝ} {a b : ℝ} (hb : b ≤ a) (h : ∀ x ∈ l, b ≤ x) :
    b ≤ List.foldl min a l := by
  induction l generalizing a with
  | nil => exact hb
  | cons c rest ih =>
    exact ih (le_min hb (h c (List.mem_cons_self c rest)))
      (fun x hx => h x (List.mem_cons_of_mem c hx))

/-- With non-negative half-extents the projected interval is ordered. -/
theorem projectOBB_fst_le_snd (o : OBB) (ax : Vec3)
    (hhe : 0 ≤ o.halfExtents.x ∧ 0 ≤ o.halfExtents.y ∧ 0 ≤ o.halfExtents.z) :
    (projectOBB o ax).1 ≤ (projectOBB o ax).2 := by
  obtain ⟨h1, h2, h3⟩ := hhe
  unfold projectOBB
  dsimp only
  have e1 : 0 ≤ o.halfExtents.x * |Vec3.dot (o.axes 0) ax| := by positivity
  have e2 : 0 ≤ o.halfExtents.y * |Vec3.dot (o.axes 1) ax| := by positivity
  have e3 : 0 ≤ o.halfExtents.z * |Vec3.dot (o.axes 2) ax| := by positivity
  linarith

/-- A non-separating axis of boxes with non-negative half-extents has a
non-negative overlap length. -/
theorem overlapLen_nonneg (obb1 obb2 : OBB) (ax : Vec3)
    (hhe1 : 0 ≤ obb1.halfExtents.x ∧ 0 ≤ obb1.halfExtents.y ∧ 0 ≤ obb1.halfExtents.z)
    (hhe2 : 0 ≤ obb2.halfExtents.x ∧ 0 ≤ obb2.halfExtents.y ∧ 0 ≤ obb2.halfExtents.z)
    (hns : ¬ sepAx obb1 obb2 ax) :
    0 ≤ overlapLen obb1 obb2 ax := by
  have ho1 := projectOBB_fst_le_snd obb1 ax hhe1
  have ho2 := projectOBB_fst_le_snd obb2 ax hhe2
  unfold sepAx at hns
  push_neg at hns
  unfold overlapLen
  rw [le_sub_iff_add_le, zero_add, max_le_iff, le_min_iff, le_min_iff]
  exact ⟨⟨ho1, hns.2⟩, ⟨hns.1, ho2⟩⟩

/-- A shared interval boundary on a non-separating axis yields overlap
length zero. -/
theorem overlapLen_touch (obb1 obb2 : OBB) (ax : Vec3)
    (hhe1 : 0 ≤ obb1.halfExtents.x ∧ 0 ≤ obb1.halfExtents.y ∧ 0 ≤ obb1.halfExtents.z)
    (hhe2 : 0 ≤ obb2.halfExtents.x ∧ 0 ≤ obb2.halfExtents.y ∧ 0 ≤ obb2.halfExtents.z)
    (ht : (projectOBB obb1 ax).2 = (projectOBB obb2 ax).1 ∨
          (projectOBB obb2 ax).2 = (projectOBB obb1 ax).1) :
    overlapLen obb1 obb2 ax = 0 := by
  have ho1 := projectOBB_fst_le_snd obb1 ax hhe1
  have ho2 := projectOBB_fst_le_snd obb2 ax hhe2
  unfold overlapLen
  rcases ht with ht | ht
  · rw [min_eq_left (by linarith), max_eq_right (by linarith)]
    linarith
  · rw [min_eq_right (by linarith), max_eq_left (by linarith)]
    linarith

theorem SAT_detected_of_some (obb1 obb2 : OBB) (r : CollisionResult)
    (m2 : ℝ) (sAxis2 : Vec3) (aType2 : ℤ)
    (h : satLoop obb1 obb2 (buildTestAxes obb1 obb2) 0 fltMax Vec3.zero (-1) =
      some (m2, sAxis2, aType2)) :
    (SATCollision obb1 obb2 r).2.collisionDetected = true := by
  rw [SATCollision_eq_of_some obb1 obb2 r m2 sAxis2 aType2 h]
  split_ifs <;> rfl

theorem nosep_AB : ∀ ax ∈ buildTestAxes obbA obbB, ¬ sepAx obbA obbB ax := by
  unfold obbA obbB
  rw [buildTestAxes_std]
  intro ax hax
  fin_cases hax <;> norm_num [sepAx, projectOBB, Vec3.dot]

/-!
## The clamped quadratic is the point-to-segment minimum
-/

theorem Vec3.add_zero_smul (a v : Vec3) : a + (0 : ℝ) • v = a := by
  ext <;> simp

theorem Vec3.sub_add_eq (a b v : Vec3) (t : ℝ) :
    a - (b + t • v) = (a - b) - t • v := by
  simp only [Vec3.sub_def, Vec3.add_def, Vec3.smul_def]
  ext <;> (dsimp only; ring)

theorem Vec3.add_smul_sub_eq (a b v : Vec3) (s : ℝ) :
    (a + s • v) - b = (a - b) - s • (-v) := by
  simp only [Vec3.sub_def, Vec3.add_def, Vec3.smul_def, Vec3.neg_def]
  ext <;> (dsimp only; ring)

theorem Vec3.dot_neg_left (a b : Vec3) : Vec3.dot (-a) b = -(Vec3.dot a b) := by
  simp only [Vec3.neg_def, Vec3.dot]
  ring

theorem length2_sub_smul (w d : Vec3) (u : ℝ) :
    Vec3.length2 (w - u • d) =
      Vec3.dot w w - 2 * u * Vec3.dot d w + u ^ 2 * Vec3.dot d d := by
  simp only [Vec3.length2, Vec3.dot, Vec3.sub_def, Vec3.smul_def]
  ring

/-- `clamp (d·w / d·d) 0 1` minimizes `|w - u d|²` over `u ∈ [0,1]`. -/
theorem clamp_point_seg_min (w d : Vec3) (he : 0 < Vec3.dot d d) (u : ℝ)
    (hu0 : 0 ≤ u) (hu1 : u ≤ 1) :
    Vec3.length2 (w - clamp (Vec3.dot d w / Vec3.dot d d) 0 1 • d) ≤
      Vec3.length2 (w - u • d) := by
  set e := Vec3.dot d d with hedef
  set fv := Vec3.dot d w with hfdef
  rw [length2_sub_smul, length2_sub_smul]
  rcases le_or_lt (fv / e) 0 with hc | hc
  · have ht : clamp (fv / e) 0 1 = 0 := by
      unfold clamp
      rw [max_eq_right hc, min_eq_left zero_le_one]
    rw [ht]
    have hfv : fv ≤ 0 := by
      by_contra hpos
      push_neg at hpos
      exact absurd (div_pos hpos he) (not_lt.mpr hc)
    nlinarith
  · rcases le_or_lt 1 (fv / e) with hc1 | hc1
    · have ht : clamp (fv / e) 0 1 = 1 := by
        unfold clamp
        rw [max_eq_left (le_trans zero_le_one hc1), min_eq_right hc1]
      rw [ht]
      have hfv : e ≤ fv := by
        rw [le_div_iff₀ he, one_mul] at hc1
        linarith
      nlinarith [mul_nonneg (sub_nonneg.mpr hu1) (sub_nonneg.mpr hfv),
        mul_nonneg (mul_nonneg (sub_nonneg.mpr hu1) (sub_nonneg.mpr hu1)) he.le]
    · have ht : clamp (fv / e) 0 1 = fv / e := by
        unfold clamp
        rw [max_eq_left hc.le, min_eq_left hc1.le]
      rw [ht]
      have hfv : fv / e * e = fv := div_mul_cancel₀ fv (ne_of_gt he)
      nlinarith [sq_nonneg (u - fv / e), sq_nonneg (u * e - fv)]

theorem obbA_vertices : obbA.getVertices =
    [⟨1, 1, 1⟩, ⟨1, 1, -1⟩, ⟨1, -1, 1⟩, ⟨1, -1, -1⟩,
     ⟨-1, 1, 1⟩, ⟨-1, 1, -1⟩, ⟨-1, -1, 1⟩, ⟨-1, -1, -1⟩] := by
  unfold obbA OBB.getVertices
  norm_num

theorem obbA_edges_head : (⟨1, 1, 1⟩, (⟨1, 1, -1⟩ : Vec3)) ∈ obbA.getEdges := by
  unfold OBB.getEdges
  rw [obbA_vertices]
  simp

theorem obbB_edges_head : (⟨2.5, 1, 1⟩, (⟨2.5, 1, -1⟩ : Vec3)) ∈ obbB.getEdges := by
  unfold OBB.getEdges
  rw [obbB_vertices]
  simp

/-- Some edge pair of the example boxes has squared distance below
`FLT_MAX`. -/
theorem sqpair_AB : ∃ pr ∈ edgePairs obbA obbB, pairSqDist pr < fltMax := by
  refine ⟨((⟨1, 1, 1⟩, ⟨1, 1, -1⟩), (⟨2.5, 1, 1⟩, ⟨2.5, 1, -1⟩)), ?_, ?_⟩
  · unfold edgePairs
    rw [List.mem_flatMap]
    refine ⟨(⟨1, 1, 1⟩, ⟨1, 1, -1⟩), obbA_edges_head, ?_⟩
    rw [List.mem_map]
    exact ⟨(⟨2.5, 1, 1⟩, ⟨2.5, 1, -1⟩), obbB_edges_head, rfl⟩
  · norm_num [pairSqDist, squaredDistanceBetweenEdges, Vec3.dot, Vec3.length2,
      clamp, fltMax, min_def, max_def]

/-!
## The claims
-/

/-- C3: for box A centered at the origin and box B centered at `(1.5,0,0)`,
both with half-extents `(1,1,1)` and world-aligned axes, `SATCollision`
returns `true`, reports penetration depth `0.5` and type `"vertex-face"`. -/
theorem C3_example_pair :
    (SATCollision obbA obbB CollisionResult.default).1 = true ∧
    (SATCollision obbA obbB CollisionResult.default).2.penetrationDepth = 0.5 ∧
    (SATCollision obbA obbB CollisionResult.default).2.collisionType = "vertex-face" := by
  rw [satAB CollisionResult.default]
  norm_num

/-- C4: swapping the two boxes yields the same boolean collision flag, and
when it is `true` the same reported penetration depth, for any pair of
initial result records. -/
theorem C4_swap_symmetry (obb1 obb2 : OBB) (r1 r2 : CollisionResult) :
    (SATCollision obb1 obb2 r1).1 = (SATCollision obb2 obb1 r2).1 ∧
    ((SATCollision obb1 obb2 r1).1 = true →
      (SATCollision obb1 obb2 r1).2.penetrationDepth =
        (SATCollision obb2 obb1 r2).2.penetrationDepth) := by
  by_cases hsep : ∃ ax ∈ buildTestAxes obb1 obb2, sepAx obb1 obb2 ax
  · have h1 : (SATCollision obb1 obb2 r1).1 = false :=
      (SATCollision_false_iff obb1 obb2 r1).mpr hsep
    have h2 : (SATCollision obb2 obb1 r2).1 = false :=
      (SATCollision_false_iff obb2 obb1 r2).mpr ((sepEx_swap obb1 obb2).mp hsep)
    refine ⟨h1.trans h2.symm, fun ht => ?_⟩
    rw [h1] at ht
    exact absurd ht (by simp)
  · have hsep2 : ¬ ∃ ax ∈ buildTestAxes obb2 obb1, sepAx obb2 obb1 ax :=
      fun hx => hsep ((sepEx_swap obb2 obb1).mp hx)
    have hns1 : ∀ ax ∈ buildTestAxes obb1 obb2, ¬ sepAx obb1 obb2 ax := by
      push_neg at hsep
      exact hsep
    have hns2 : ∀ ax ∈ buildTestAxes obb2 obb1, ¬ sepAx obb2 obb1 ax := by
      push_neg at hsep2
      exact hsep2
    obtain ⟨m2, s2, t2, hl1, hm1, _⟩ :=
      satLoop_spec obb1 obb2 (buildTestAxes obb1 obb2) 0 fltMax Vec3.zero (-1) hns1
    obtain ⟨m2b, s2b, t2b, hl2, hm2, _⟩ :=
      satLoop_spec obb2 obb1 (buildTestAxes obb2 obb1) 0 fltMax Vec3.zero (-1) hns2
    have hf1 := SAT_fst_true_of_some obb1 obb2 r1 m2 s2 t2 hl1
    have hf2 := SAT_fst_true_of_some obb2 obb1 r2 m2b s2b t2b hl2
    refine ⟨hf1.trans hf2.symm, fun _ => ?_⟩
    rw [SAT_depth_eq obb1 obb2 r1 m2 s2 t2 hl1, SAT_depth_eq obb2 obb1 r2 m2b s2b t2b hl2,
      hm1, hm2]
    exact ((depthList_swap_perm obb1 obb2).foldl_eq fltMax).symm

/-- Witness for C4 at the example boxes. -/
theorem C4_swap_symmetry_witness :
    (SATCollision obbA obbB CollisionResult.default).1 =
      (SATCollision obbB obbA CollisionResult.default).1 ∧
    ((SATCollision obbA obbB CollisionResult.default).1 = true →
      (SATCollision obbA obbB CollisionResult.default).2.penetrationDepth =
        (SATCollision obbB obbA CollisionResult.default).2.penetrationDepth) :=
  C4_swap_symmetry obbA obbB CollisionResult.default CollisionResult.default

/-- C5: `projectOBB` returns exactly the support-function interval, and
`overlapOnAxis` fails exactly when one interval is wholly left of the other,
otherwise returning the overlap `min(max1,max2) - max(min1,min2)`. -/
theorem C5_projection_overlap (o obb1 obb2 : OBB) (axis : Vec3) :
    projectOBB o axis =
      (Vec3.dot o.center axis -
        (o.halfExtents.x * |Vec3.dot (o.axes 0) axis| +
          o.halfExtents.y * |Vec3.dot (o.axes 1) axis| +
          o.halfExtents.z * |Vec3.dot (o.axes 2) axis|),
       Vec3.dot o.center axis +
        (o.halfExtents.x * |Vec3.dot (o.axes 0) axis| +
          o.halfExtents.y * |Vec3.dot (o.axes 1) axis| +
          o.halfExtents.z * |Vec3.dot (o.axes 2) axis|)) ∧
    (overlapOnAxis obb1 obb2 axis = none ↔
      (projectOBB obb1 axis).2 < (projectOBB obb2 axis).1 ∨
      (projectOBB obb2 axis).2 < (projectOBB obb1 axis).1) ∧
    (overlapOnAxis obb1 obb2 axis ≠ none ↔
      (projectOBB obb2 axis).1 ≤ (projectOBB obb1 axis).2 ∧
      (projectOBB obb1 axis).1 ≤ (projectOBB obb2 axis).2) ∧
    (overlapOnAxis obb1 obb2 axis = none ∨
      overlapOnAxis obb1 obb2 axis =
        some (min (projectOBB obb1 axis).2 (projectOBB obb2 axis).2 -
          max (projectOBB obb1 axis).1 (projectOBB obb2 axis).1)) := by
  refine ⟨rfl, overlapOnAxis_eq_none_iff obb1 obb2 axis, ?_, ?_⟩
  · rw [Ne, overlapOnAxis_eq_none_iff obb1 obb2 axis]
    unfold sepAx
    push_neg
    constructor
    · rintro ⟨h1, h2⟩
      exact ⟨h1, h2⟩
    · rintro ⟨h1, h2⟩
      exact ⟨h1, h2⟩
  · by_cases h : sepAx obb1 obb2 axis
    · exact Or.inl ((overlapOnAxis_eq_none_iff obb1 obb2 axis).mpr h)
    · exact Or.inr (overlapOnAxis_of_not_sep obb1 obb2 axis h)

/-- C9: boxes (with the data-model invariant of non-negative half-extents)
whose projections overlap on every candidate axis and share an interval
boundary on some candidate axis collide with reported penetration depth 0. -/
theorem C9_face_touch (obb1 obb2 : OBB) (r : CollisionResult)
    (hhe1 : 0 ≤ obb1.halfExtents.x ∧ 0 ≤ obb1.halfExtents.y ∧ 0 ≤ obb1.halfExtents.z)
    (hhe2 : 0 ≤ obb2.halfExtents.x ∧ 0 ≤ obb2.halfExtents.y ∧ 0 ≤ obb2.halfExtents.z)
    (hall : ∀ ax ∈ buildTestAxes obb1 obb2, ¬ sepAx obb1 obb2 ax)
    (htouch : ∃ ax ∈ buildTestAxes obb1 obb2,
      (projectOBB obb1 ax).2 = (projectOBB obb2 ax).1 ∨
      (projectOBB obb2 ax).2 = (projectOBB obb1 ax).1) :
    (SATCollision obb1 obb2 r).1 = true ∧
    (SATCollision obb1 obb2 r).2.penetrationDepth = 0 := by
  obtain ⟨m2, s2, t2, hl, hm, _⟩ :=
    satLoop_spec obb1 obb2 (buildTestAxes obb1 obb2) 0 fltMax Vec3.zero (-1) hall
  refine ⟨SAT_fst_true_of_some obb1 obb2 r m2 s2 t2 hl, ?_⟩
  rw [SAT_depth_eq obb1 obb2 r m2 s2 t2 hl, hm]
  apply le_antisymm
  · obtain ⟨axT, haxT, ht⟩ := htouch
    have hz : overlapLen obb1 obb2 axT = 0 := overlapLen_touch obb1 obb2 axT hhe1 hhe2 ht
    have hmem : (0 : ℝ) ∈ (buildTestAxes obb1 obb2).map (overlapLen obb1 obb2) :=
      List.mem_map.mpr ⟨axT, haxT, hz⟩
    exact foldl_min_le_mem fltMax hmem
  · refine le_foldl_min (by norm_num [fltMax]) ?_
    intro x hx
    obtain ⟨ax, hax, rfl⟩ := List.mem_map.mp hx
    exact overlapLen_nonneg obb1 obb2 ax hhe1 hhe2 (hall ax hax)

/-- Witness for C9: the origin cube against the cube at `(2,0,0)` touch
exactly face to face. -/
theorem C9_face_touch_witness :
    (SATCollision obbA obbTouch CollisionResult.default).1 = true ∧
    (SATCollision obbA obbTouch CollisionResult.default).2.penetrationDepth = 0 :=
  C9_face_touch obbA obbTouch CollisionResult.default
    (by norm_num [obbA]) (by norm_num [obbTouch]) nosep_ATouch touch_ATouch

/-- C10: when no vertex of either box qualifies (strictly negative signed
distance to an opposing center plane together with an in-bounds in-plane
projection), `vertexFaceCollision` returns the zero vector, and a reported
vertex-face collision then carries `(0,0,0)` as its contact point. -/
theorem C10_no_candidate_zero (obb1 obb2 : OBB)
    (h : ∀ c ∈ vfCands obb1 obb2, ¬ candQual c) :
    vertexFaceCollision obb1 obb2 = Vec3.zero ∧
    ∀ r : CollisionResult, (SATCollision obb1 obb2 r).1 = true →
      (SATCollision obb1 obb2 r).2.collisionType = "vertex-face" →
      r.collisionType ≠ "vertex-face" →
      (SATCollision obb1 obb2 r).2.contactPoint = Vec3.zero := by
  have hz : vertexFaceCollision obb1 obb2 = Vec3.zero := by
    rw [vertexFaceCollision_eq_scan,
      minScan_none candQual candDist candVert _ vfCheck_eq_step
        (vfCands obb1 obb2) (Vec3.zero, fltMax) h]
  exact ⟨hz, fun r h1 h2 h3 => (SAT_contact_of_type_vf obb1 obb2 r h1 h2 h3).trans hz⟩

/-- Witness for C10: the large cube and the unit cube in its positive
octant have no qualifying vertex; the reported vertex-face contact point is
`(0,0,0)`, which is not a vertex of either box. -/
theorem C10_no_candidate_zero_witness :
    (∀ c ∈ vfCands obbOuter obbInner, ¬ candQual c) ∧
    vertexFaceCollision obbOuter obbInner = Vec3.zero ∧
    (SATCollision obbOuter obbInner CollisionResult.default).1 = true ∧
    (SATCollision obbOuter obbInner CollisionResult.default).2.collisionType =
      "vertex-face" ∧
    (SATCollision obbOuter obbInner CollisionResult.default).2.contactPoint =
      Vec3.zero := by
  have h := C10_no_candidate_zero obbOuter obbInner noqual_OI
  refine ⟨noqual_OI, h.1, by simp [satOI], by simp [satOI], ?_⟩
  exact h.2 CollisionResult.default (by simp [satOI]) (by simp [satOI])
    (by simp [CollisionResult.default])

/-- C1 (amended): candidate axes are the six face axes (indices 0-5)
followed by at most 9 kept normalized cross products, and  — provided the
minimal overlap is below the `FLT_MAX` the tracker starts from — the
reported type is `"vertex-face"` exactly when the first index attaining the
minimal overlap is at most 5, and `"edge-edge"` exactly when it is at least
6. -/
theorem C1_axis_order_classification (obb1 obb2 : OBB) (r : CollisionResult) :
    ((buildTestAxes obb1 obb2).take 6 =
      [obb1.axes 0, obb1.axes 1, obb1.axes 2, obb2.axes 0, obb2.axes 1, obb2.axes 2] ∧
     buildTestAxes obb1 obb2 =
      [obb1.axes 0, obb1.axes 1, obb1.axes 2, obb2.axes 0, obb2.axes 1, obb2.axes 2]
        ++ crossAxes obb1 obb2 ∧
     (crossAxes obb1 obb2).length ≤ 9 ∧
     (∀ ax ∈ crossAxes obb1 obb2, ∃ p ∈ axisPairs,
        Vec3.length (Vec3.cross (obb1.axes p.1) (obb2.axes p.2)) > 1e-6 ∧
        ax = Vec3.normalize (Vec3.cross (obb1.axes p.1) (obb2.axes p.2)))) ∧
    ((∀ ax ∈ buildTestAxes obb1 obb2, ¬ sepAx obb1 obb2 ax) →
      List.foldl min fltMax (depthList obb1 obb2) < fltMax →
      ∃ k : ℕ, k < (buildTestAxes obb1 obb2).length ∧
        (depthList obb1 obb2).getD k 0 = List.foldl min fltMax (depthList obb1 obb2) ∧
        (∀ j < k,
          List.foldl min fltMax (depthList obb1 obb2) < (depthList obb1 obb2).getD j 0) ∧
        ((SATCollision obb1 obb2 r).2.collisionType = "vertex-face" ↔ k ≤ 5) ∧
        ((SATCollision obb1 obb2 r).2.collisionType = "edge-edge" ↔ 6 ≤ k)) := by
  have hlen9 : (crossAxes obb1 obb2).length ≤ 9 := by
    have := List.length_filterMap_le
      (fun p : Fin 3 × Fin 3 =>
        let crossAxis := Vec3.cross (obb1.axes p.1) (obb2.axes p.2)
        if Vec3.length crossAxis > 1e-6 then some (Vec3.normalize crossAxis) else none)
      axisPairs
    simpa [crossAxes] using this
  refine ⟨⟨?_, rfl, hlen9, ?_⟩, ?_⟩
  · rfl
  · intro ax hax
    simp only [crossAxes, List.mem_filterMap] at hax
    obtain ⟨p, hp, heq⟩ := hax
    split_ifs at heq with hcl
    exact ⟨p, hp, hcl, (Option.some.inj heq).symm⟩
  · intro hns hlt
    unfold depthList at hlt ⊢
    obtain ⟨m2, s2, t2, hl, hm, hdisj⟩ :=
      satLoop_spec obb1 obb2 (buildTestAxes obb1 obb2) 0 fltMax Vec3.zero (-1) hns
    rcases hdisj with ⟨hm2, _, _⟩ | ⟨_, k, hk, ht, _, hg, hall⟩
    · rw [hm] at hm2
      exact absurd hm2 (ne_of_lt hlt)
    · have hklen : k < (buildTestAxes obb1 obb2).length := hk
      have hlen15 : (buildTestAxes obb1 obb2).length ≤ 15 := by
        unfold buildTestAxes
        rw [List.length_append]
        simp only [List.length_cons, List.length_nil]
        omega
      refine ⟨k, hklen, ?_, ?_, ?_, ?_⟩
      · rw [← hm]
        exact hg
      · intro j hj
        rw [← hm]
        exact hall j hj
      · rw [SATCollision_eq_of_some obb1 obb2 r m2 s2 t2 hl]
        by_cases hk5 : k ≤ 5
        · rw [if_pos (by omega : 0 ≤ t2 ∧ t2 ≤ 5)]
          exact ⟨fun _ => hk5, fun _ => rfl⟩
        · rw [if_neg (by omega : ¬(0 ≤ t2 ∧ t2 ≤ 5)),
            if_pos (by omega : 6 ≤ t2 ∧ t2 ≤ 14)]
          refine ⟨fun hcontra => ?_, fun h6 => absurd h6 (by omega)⟩
          have hss : ("edge-edge" : String) = "vertex-face" := hcontra
          exact absurd hss (by decide)
      · rw [SATCollision_eq_of_some obb1 obb2 r m2 s2 t2 hl]
        by_cases hk5 : k ≤ 5
        · rw [if_pos (by omega : 0 ≤ t2 ∧ t2 ≤ 5)]
          refine ⟨fun hcontra => ?_, fun h6 => absurd h6 (by omega)⟩
          have hss : ("vertex-face" : String) = "edge-edge" := hcontra
          exact absurd hss (by decide)
        · rw [if_neg (by omega : ¬(0 ≤ t2 ∧ t2 ≤ 5)),
            if_pos (by omega : 6 ≤ t2 ∧ t2 ≤ 14)]
          exact ⟨fun _ => by omega, fun _ => rfl⟩

/-- Witness for C1 at the example boxes: no axis separates, the minimal
overlap `1/2` is below `FLT_MAX`, and the classification biconditionals
hold. -/
theorem C1_axis_order_classification_witness :
    (∀ ax ∈ buildTestAxes obbA obbB, ¬ sepAx obbA obbB ax) ∧
    List.foldl min fltMax (depthList obbA obbB) < fltMax ∧
    (∃ k : ℕ, k < (buildTestAxes obbA obbB).length ∧
      (depthList obbA obbB).getD k 0 = List.foldl min fltMax (depthList obbA obbB) ∧
      (∀ j < k,
        List.foldl min fltMax (depthList obbA obbB) < (depthList obbA obbB).getD j 0) ∧
      ((SATCollision obbA obbB CollisionResult.default).2.collisionType =
        "vertex-face" ↔ k ≤ 5) ∧
      ((SATCollision obbA obbB CollisionResult.default).2.collisionType =
        "edge-edge" ↔ 6 ≤ k)) := by
  have hlt : List.foldl min fltMax (depthList obbA obbB) < fltMax := by
    rw [foldl_depth_AB]
    norm_num [fltMax]
  exact ⟨nosep_AB, hlt,
    (C1_axis_order_classification obbA obbB CollisionResult.default).2 nosep_AB hlt⟩

/-- Counterexample for C1 as stated: for two cubes with half-extents
`FLT_MAX`, every candidate-axis overlap equals `2 · FLT_MAX`, so the
minimum-overlap axis is the first one (index 0, a face axis), the collision
is reported, yet the collision type is not `"vertex-face"` (the tracker,
initialized to `FLT_MAX`, never updates and `axisType` stays `-1`). -/
theorem C1_counterexample :
    (SATCollision bigBox bigBox CollisionResult.default).1 = true ∧
    (∀ d ∈ depthList bigBox bigBox, d = 2 * fltMax) ∧
    (buildTestAxes bigBox bigBox).length = 12 ∧
    (SATCollision bigBox bigBox CollisionResult.default).2.collisionType ≠
      "vertex-face" := by
  refine ⟨by simp [satBig], depthList_big, buildTestAxes_big_length, ?_⟩
  simp [satBig, CollisionResult.default]

/-- C2 (amended): `SATCollision` returns `false` exactly when a separating
axis exists, in which case the result record is untouched; otherwise it
returns `true`, sets the flag and the depth (to the tracked minimum), and —
provided the tracked minimum is below the initial `FLT_MAX` — also the type
tag and the matching recovery contact point. -/
theorem C2_separation_result (obb1 obb2 : OBB) (r : CollisionResult) :
    ((SATCollision obb1 obb2 r).1 = false ↔
      ∃ ax ∈ buildTestAxes obb1 obb2, sepAx obb1 obb2 ax) ∧
    ((SATCollision obb1 obb2 r).1 = false → (SATCollision obb1 obb2 r).2 = r) ∧
    ((SATCollision obb1 obb2 r).1 = true →
      (SATCollision obb1 obb2 r).2.collisionDetected = true ∧
      (SATCollision obb1 obb2 r).2.penetrationDepth =
        List.foldl min fltMax (depthList obb1 obb2) ∧
      ((SATCollision obb1 obb2 r).2.penetrationDepth < fltMax →
        ((SATCollision obb1 obb2 r).2.collisionType = "vertex-face" ∧
          (SATCollision obb1 obb2 r).2.contactPoint = vertexFaceCollision obb1 obb2) ∨
        ((SATCollision obb1 obb2 r).2.collisionType = "edge-edge" ∧
          (SATCollision obb1 obb2 r).2.contactPoint = edgeEdgeCollision obb1 obb2))) := by
  refine ⟨SATCollision_false_iff obb1 obb2 r, ?_, ?_⟩
  · intro hfalse
    cases hcase : satLoop obb1 obb2 (buildTestAxes obb1 obb2) 0 fltMax Vec3.zero (-1) with
    | none => rw [SATCollision_eq_of_none obb1 obb2 r hcase]
    | some trip =>
      obtain ⟨m2, s2, t2⟩ := trip
      rw [SAT_fst_true_of_some obb1 obb2 r m2 s2 t2 hcase] at hfalse
      exact absurd hfalse (by simp)
  · intro htrue
    have hns : ∀ ax ∈ buildTestAxes obb1 obb2, ¬ sepAx obb1 obb2 ax := by
      have hnf : ¬ ∃ ax ∈ buildTestAxes obb1 obb2, sepAx obb1 obb2 ax := by
        intro hx
        rw [(SATCollision_false_iff obb1 obb2 r).mpr hx] at htrue
        exact absurd htrue (by simp)
      push_neg at hnf
      exact hnf
    obtain ⟨m2, s2, t2, hl, hm, hdisj⟩ :=
      satLoop_spec obb1 obb2 (buildTestAxes obb1 obb2) 0 fltMax Vec3.zero (-1) hns
    have hdepth := SAT_depth_eq obb1 obb2 r m2 s2 t2 hl
    refine ⟨SAT_detected_of_some obb1 obb2 r m2 s2 t2 hl, by rw [hdepth, hm]; rfl, ?_⟩
    intro hsmall
    rw [hdepth] at hsmall
    rcases hdisj with ⟨hm2, _, _⟩ | ⟨_, k, hk, ht, _, _, _⟩
    · exact absurd (hm2 ▸ hsmall) (lt_irrefl fltMax)
    · have hlen15 : (buildTestAxes obb1 obb2).length ≤ 15 := by
        unfold buildTestAxes
        rw [List.length_append]
        simp only [List.length_cons, List.length_nil]
        have : (crossAxes obb1 obb2).length ≤ 9 := by
          have := List.length_filterMap_le
            (fun p : Fin 3 × Fin 3 =>
              let crossAxis := Vec3.cross (obb1.axes p.1) (obb2.axes p.2)
              if Vec3.length crossAxis > 1e-6 then some (Vec3.normalize crossAxis)
              else none)
            axisPairs
          simpa [crossAxes] using this
        omega
      rw [SATCollision_eq_of_some obb1 obb2 r m2 s2 t2 hl]
      by_cases hk5 : k ≤ 5
      · rw [if_pos (by omega : 0 ≤ t2 ∧ t2 ≤ 5)]
        exact Or.inl ⟨rfl, rfl⟩
      · rw [if_neg (by omega : ¬(0 ≤ t2 ∧ t2 ≤ 5)),
          if_pos (by omega : 6 ≤ t2 ∧ t2 ≤ 14)]
        exact Or.inr ⟨rfl, rfl⟩

/-- Witness for C2: the separated pair returns `false` with the record
untouched. -/
theorem C2_separation_result_witness :
    (SATCollision obbA obbFar CollisionResult.default).1 = false ∧
    (SATCollision obbA obbFar CollisionResult.default).2 = CollisionResult.default := by
  have h := C2_separation_result obbA obbFar CollisionResult.default
  have hf : (SATCollision obbA obbFar CollisionResult.default).1 = false :=
    h.1.mpr sep_AFar
  exact ⟨hf, h.2.1 hf⟩

/-- Counterexample for C2 as stated: for the `FLT_MAX` cubes no axis
separates and `SATCollision` returns `true`, yet the contact point is left
at whatever the caller put in the record (the type tag stays empty), so the
result record is not fully populated. -/
theorem C2_counterexample :
    (SATCollision bigBox bigBox rSentA).1 = true ∧
    (SATCollision bigBox bigBox rSentA).2.contactPoint = ⟨7, 7, 7⟩ ∧
    (SATCollision bigBox bigBox rSentB).1 = true ∧
    (SATCollision bigBox bigBox rSentB).2.contactPoint = ⟨8, 8, 8⟩ ∧
    (SATCollision bigBox bigBox rSentA).2.collisionType = "" := by
  refine ⟨by simp [satBig], ?_, by simp [satBig], ?_, ?_⟩ <;>
    simp [satBig, rSentA, rSentB, CollisionResult.default]

/-- C6 (amended): whenever at least one qualifying vertex with penetration
distance below `FLT_MAX` exists, a reported vertex-face contact point is a
qualifying vertex of one of the two boxes of minimal absolute penetration
distance, reported verbatim. -/
theorem C6_vertex_face_contact (obb1 obb2 : OBB)
    (hex : ∃ c ∈ vfCands obb1 obb2, candQual c ∧ candDist c < fltMax) :
    (∃ c ∈ vfCands obb1 obb2, candQual c ∧
      vertexFaceCollision obb1 obb2 = candVert c ∧
      (candVert c ∈ obb1.getVertices ∨ candVert c ∈ obb2.getVertices) ∧
      ∀ d ∈ vfCands obb1 obb2, candQual d → candDist c ≤ candDist d) ∧
    ∀ r : CollisionResult, (SATCollision obb1 obb2 r).1 = true →
      (SATCollision obb1 obb2 r).2.collisionType = "vertex-face" →
      r.collisionType ≠ "vertex-face" →
      (SATCollision obb1 obb2 r).2.contactPoint = vertexFaceCollision obb1 obb2 := by
  constructor
  · obtain ⟨c, hc, hq, heq, hmin⟩ :=
      minScan_found candQual candDist candVert
        (fun acc c => vfCheck c.1 c.2.1 c.2.2 acc) vfCheck_eq_step
        (vfCands obb1 obb2) (Vec3.zero, fltMax) hex
    refine ⟨c, hc, hq, ?_, vfCands_vert_mem obb1 obb2 c hc, hmin⟩
    rw [vertexFaceCollision_eq_scan, heq]
  · exact fun r h1 h2 h3 => SAT_contact_of_type_vf obb1 obb2 r h1 h2 h3

/-- Witness for C6 at the example boxes. -/
theorem C6_vertex_face_contact_witness :
    (∃ c ∈ vfCands obbA obbB, candQual c ∧
      vertexFaceCollision obbA obbB = candVert c ∧
      (candVert c ∈ obbA.getVertices ∨ candVert c ∈ obbB.getVertices) ∧
      ∀ d ∈ vfCands obbA obbB, candQual d → candDist c ≤ candDist d) ∧
    ∀ r : CollisionResult, (SATCollision obbA obbB r).1 = true →
      (SATCollision obbA obbB r).2.collisionType = "vertex-face" →
      r.collisionType ≠ "vertex-face" →
      (SATCollision obbA obbB r).2.contactPoint = vertexFaceCollision obbA obbB :=
  C6_vertex_face_contact obbA obbB qual_AB

/-- Counterexample for C6 as stated: the large cube against the unit cube in
its positive octant is reported as a vertex-face collision, but the contact
point `(0,0,0)` is not a vertex of either box (no vertex qualifies and the
initial value is returned). -/
theorem C6_counterexample :
    (SATCollision obbOuter obbInner CollisionResult.default).1 = true ∧
    (SATCollision obbOuter obbInner CollisionResult.default).2.collisionType =
      "vertex-face" ∧
    (SATCollision obbOuter obbInner CollisionResult.default).2.contactPoint =
      Vec3.zero ∧
    ∀ v ∈ obbOuter.getVertices ++ obbInner.getVertices,
      v ≠ (SATCollision obbOuter obbInner CollisionResult.default).2.contactPoint := by
  refine ⟨by simp [satOI], by simp [satOI], by simp [satOI, vfc_OI], ?_⟩
  intro v hv
  have hcp : (SATCollision obbOuter obbInner CollisionResult.default).2.contactPoint =
      Vec3.zero := by simp [satOI, vfc_OI]
  rw [hcp]
  rw [obbOuter_vertices, obbInner_vertices] at hv
  simp only [List.cons_append, List.nil_append] at hv
  fin_cases hv <;> (intro hne; simp only [Vec3.zero, Vec3.mk.injEq] at hne; norm_num at hne)

/-- C7 (amended): whenever some edge pair has squared distance below
`FLT_MAX`, a reported edge-edge contact point is
`closestPointBetweenLines` of an edge pair of globally minimal squared
distance, and it lies on one of the edges of one of the two boxes. -/
theorem C7_edge_edge_contact (obb1 obb2 : OBB)
    (hex : ∃ pr ∈ edgePairs obb1 obb2, pairSqDist pr < fltMax) :
    (∃ pr ∈ edgePairs obb1 obb2,
      pr.1 ∈ obb1.getEdges ∧ pr.2 ∈ obb2.getEdges ∧
      (∀ qr ∈ edgePairs obb1 obb2, pairSqDist pr ≤ pairSqDist qr) ∧
      edgeEdgeCollision obb1 obb2 =
        closestPointBetweenLines pr.1.1 pr.1.2 pr.2.1 pr.2.2 ∧
      (onSegment pr.1.1 pr.1.2 (edgeEdgeCollision obb1 obb2) ∨
       onSegment pr.2.1 pr.2.2 (edgeEdgeCollision obb1 obb2))) ∧
    ∀ r : CollisionResult, (SATCollision obb1 obb2 r).1 = true →
      (SATCollision obb1 obb2 r).2.collisionType = "edge-edge" →
      r.collisionType ≠ "edge-edge" →
      (SATCollision obb1 obb2 r).2.contactPoint = edgeEdgeCollision obb1 obb2 := by
  constructor
  · obtain ⟨pr, hpr, _, heq, hmin⟩ :=
      minScan_found (fun _ => True) pairSqDist id
        (fun acc pr => if pairSqDist pr < acc.2 then (pr, pairSqDist pr) else acc)
        (fun acc x => by simp only [true_and, id_eq])
        (edgePairs obb1 obb2) (((Vec3.zero, Vec3.zero), (Vec3.zero, Vec3.zero)), fltMax)
        (by obtain ⟨pr, hpr, hlt⟩ := hex; exact ⟨pr, hpr, trivial, hlt⟩)
    obtain ⟨h1mem, h2mem⟩ := edgePairs_mem obb1 obb2 pr hpr
    have hfce : findClosestEdges obb1 obb2 = pr := by
      rw [findClosestEdges_eq_scan, heq]
      rfl
    have hee : edgeEdgeCollision obb1 obb2 =
        closestPointBetweenLines pr.1.1 pr.1.2 pr.2.1 pr.2.2 := by
      unfold edgeEdgeCollision
      rw [hfce]
    refine ⟨pr, hpr, h1mem, h2mem, fun qr hqr => hmin qr hqr trivial, hee, ?_⟩
    rw [hee]
    exact closestPointBetweenLines_onSegment pr.1.1 pr.1.2 pr.2.1 pr.2.2
  · exact fun r h1 h2 h3 => SAT_contact_of_type_ee obb1 obb2 r h1 h2 h3

/-- Witness for C7 at the example boxes. -/
theorem C7_edge_edge_contact_witness :
    (∃ pr ∈ edgePairs obbA obbB,
      pr.1 ∈ obbA.getEdges ∧ pr.2 ∈ obbB.getEdges ∧
      (∀ qr ∈ edgePairs obbA obbB, pairSqDist pr ≤ pairSqDist qr) ∧
      edgeEdgeCollision obbA obbB =
        closestPointBetweenLines pr.1.1 pr.1.2 pr.2.1 pr.2.2 ∧
      (onSegment pr.1.1 pr.1.2 (edgeEdgeCollision obbA obbB) ∨
       onSegment pr.2.1 pr.2.2 (edgeEdgeCollision obbA obbB))) ∧
    ∀ r : CollisionResult, (SATCollision obbA obbB r).1 = true →
      (SATCollision obbA obbB r).2.collisionType = "edge-edge" →
      r.collisionType ≠ "edge-edge" →
      (SATCollision obbA obbB r).2.contactPoint = edgeEdgeCollision obbA obbB :=
  C7_edge_edge_contact obbA obbB sqpair_AB

/-- Counterexample for C7 as stated: for the `FLT_MAX` cubes with a result
record already tagged `"edge-edge"`, `SATCollision` returns `true` with type
`"edge-edge"`, yet the contact point `(0,0,0)` does not lie on any of the 12
edges of the (identical) input boxes — the tracker never updates, no
recovery routine runs, and the stale record leaks through. -/
theorem C7_counterexample :
    (SATCollision bigBox bigBox rEE).1 = true ∧
    (SATCollision bigBox bigBox rEE).2.collisionType = "edge-edge" ∧
    ∀ e ∈ bigBox.getEdges,
      ¬ onSegment e.1 e.2 ((SATCollision bigBox bigBox rEE).2.contactPoint) := by
  refine ⟨by simp [satBig], by simp [satBig, rEE, CollisionResult.default], ?_⟩
  intro e he
  have hcp : (SATCollision bigBox bigBox rEE).2.contactPoint = ⟨0, 0, 0⟩ := by
    simp [satBig, rEE, CollisionResult.default, Vec3.zero]
  rw [hcp, bigBox_edges] at *
  fin_cases he <;>
    (rintro ⟨u, hu0, hu1, heq⟩
     simp only [Vec3.add_def, Vec3.sub_def, Vec3.smul_def, Vec3.mk.injEq] at heq
     norm_num [fltMax] at heq)

/-- C8 (amended): the segment-distance solver collapses a segment whose
squared length is at most `1e-6` to a point — returning the point-to-point
respectively the (optimal) point-to-segment squared distance — and falls
back to `s = 0`, solving the clamped `t` alone, exactly when the
normal-equations denominator `a·e - b²` equals zero. -/
theorem C8_degenerate_segments (p1 q1 p2 q2 : Vec3) :
    (Vec3.dot (q1 - p1) (q1 - p1) ≤ 1e-6 → Vec3.dot (q2 - p2) (q2 - p2) ≤ 1e-6 →
      squaredDistanceBetweenEdges p1 q1 p2 q2 = Vec3.dot (p1 - p2) (p1 - p2)) ∧
    (Vec3.dot (q1 - p1) (q1 - p1) ≤ 1e-6 → ¬ Vec3.dot (q2 - p2) (q2 - p2) ≤ 1e-6 →
      squaredDistanceBetweenEdges p1 q1 p2 q2 =
        Vec3.length2 ((p1 - p2) -
          clamp (Vec3.dot (q2 - p2) (p1 - p2) / Vec3.dot (q2 - p2) (q2 - p2)) 0 1
            • (q2 - p2)) ∧
      ∀ u : ℝ, 0 ≤ u → u ≤ 1 →
        squaredDistanceBetweenEdges p1 q1 p2 q2 ≤
          Vec3.length2 ((p1 - p2) - u • (q2 - p2))) ∧
    (¬ Vec3.dot (q1 - p1) (q1 - p1) ≤ 1e-6 → Vec3.dot (q2 - p2) (q2 - p2) ≤ 1e-6 →
      squaredDistanceBetweenEdges p1 q1 p2 q2 =
        Vec3.length2 ((p1 - p2) -
          clamp (-(Vec3.dot (q1 - p1) (p1 - p2)) / Vec3.dot (q1 - p1) (q1 - p1)) 0 1
            • (-(q1 - p1))) ∧
      ∀ u : ℝ, 0 ≤ u → u ≤ 1 →
        squaredDistanceBetweenEdges p1 q1 p2 q2 ≤
          Vec3.length2 ((p1 - p2) - u • (-(q1 - p1)))) ∧
    (¬ Vec3.dot (q1 - p1) (q1 - p1) ≤ 1e-6 → ¬ Vec3.dot (q2 - p2) (q2 - p2) ≤ 1e-6 →
      Vec3.dot (q1 - p1) (q1 - p1) * Vec3.dot (q2 - p2) (q2 - p2) -
        Vec3.dot (q1 - p1) (q2 - p2) * Vec3.dot (q1 - p1) (q2 - p2) = 0 →
      squaredDistanceBetweenEdges p1 q1 p2 q2 =
        specParallelFallbackSqDist p1 q1 p2 q2) := by
  refine ⟨?_, ?_, ?_, ?_⟩
  · intro h1 h2
    simp only [squaredDistanceBetweenEdges]
    rw [if_pos ⟨h1, h2⟩]
  · intro h1 h2
    have he : 0 < Vec3.dot (q2 - p2) (q2 - p2) :=
      lt_trans (by norm_num) (not_le.mp h2)
    have hval : squaredDistanceBetweenEdges p1 q1 p2 q2 =
        Vec3.length2 ((p1 - p2) -
          clamp (Vec3.dot (q2 - p2) (p1 - p2) / Vec3.dot (q2 - p2) (q2 - p2)) 0 1
            • (q2 - p2)) := by
      simp only [squaredDistanceBetweenEdges]
      rw [if_neg (fun hc => h2 hc.2), if_pos h1]
      dsimp only
      rw [Vec3.add_zero_smul]
      congr 1
      rw [Vec3.sub_add_eq]
    refine ⟨hval, ?_⟩
    intro u hu0 hu1
    rw [hval]
    exact clamp_point_seg_min (p1 - p2) (q2 - p2) he u hu0 hu1
  · intro h1 h2
    have ha : 0 < Vec3.dot (q1 - p1) (q1 - p1) :=
      lt_trans (by norm_num) (not_le.mp h1)
    have he : 0 < Vec3.dot (-(q1 - p1)) (-(q1 - p1)) := by
      rw [Vec3.dot_neg_neg]
      exact ha
    have hval : squaredDistanceBetweenEdges p1 q1 p2 q2 =
        Vec3.length2 ((p1 - p2) -
          clamp (-(Vec3.dot (q1 - p1) (p1 - p2)) / Vec3.dot (q1 - p1) (q1 - p1)) 0 1
            • (-(q1 - p1))) := by
      simp only [squaredDistanceBetweenEdges]
      rw [if_neg (fun hc => h1 hc.1), if_neg h1, if_pos h2]
      dsimp only
      rw [Vec3.add_zero_smul]
      congr 1
      rw [Vec3.add_smul_sub_eq]
    refine ⟨hval, ?_⟩
    intro u hu0 hu1
    have hopt := clamp_point_seg_min (p1 - p2) (-(q1 - p1)) he u hu0 hu1
    rw [Vec3.dot_neg_left, Vec3.dot_neg_neg] at hopt
    rw [hval]
    exact hopt
  · intro h1 h2 hden
    simp only [squaredDistanceBetweenEdges, specParallelFallbackSqDist]
    rw [if_neg (fun hc => h1 hc.1), if_neg h1, if_neg h2,
      if_neg (not_not_intro hden)]
    dsimp only
    rw [Vec3.add_zero_smul]
    simp only [mul_zero, zero_add]

/-- Witness for C8: two point-degenerate segments yield the point-to-point
squared distance. -/
theorem C8_degenerate_segments_witness :
    squaredDistanceBetweenEdges ⟨0, 0, 0⟩ ⟨0, 0, 0⟩ ⟨1, 0, 0⟩ ⟨1, 0, 0⟩ =
      Vec3.dot ((⟨0, 0, 0⟩ : Vec3) - ⟨1, 0, 0⟩) ((⟨0, 0, 0⟩ : Vec3) - ⟨1, 0, 0⟩) :=
  (C8_degenerate_segments ⟨0, 0, 0⟩ ⟨0, 0, 0⟩ ⟨1, 0, 0⟩ ⟨1, 0, 0⟩).1
    (by norm_num [Vec3.dot]) (by norm_num [Vec3.dot])

/-- Segments whose directions are nearly parallel (angle about `2^-10`
radians) with a small but non-zero normal-equations denominator.  The
perturbation `2^-10` is dyadic, so every intermediate value the solver
computes at these points (`e = 1 + 2^-20`, `b = 1`, `f = c = -2`,
`denom = 2^-20`, `b·f - c·e = 2^-19`, `s = 2` before clamping, the final
squared distances `1` and `4`) is exactly representable in single-precision
floating point: the float program computes the same numbers as this exact
model at this input. -/
def segP1 : Vec3 := ⟨0, 0, 0⟩

def segQ1 : Vec3 := ⟨1, 0, 0⟩

def segP2 : Vec3 := ⟨2, 0, 0⟩

def segQ2 : Vec3 := ⟨3, 1 / 1024, 0⟩

/-- Counterexample for C8 as stated: with denominator `2^-20 ≈ 9.5e-7` —
non-zero, but near zero by any reading and below even the `1e-6` epsilon
scale the code uses elsewhere — the solver does not fall back to `s = 0`:
it returns `1` (the true squared distance) while the claimed fallback value
is `4`. -/
theorem C8_counterexample :
    Vec3.dot (segQ1 - segP1) (segQ1 - segP1) * Vec3.dot (segQ2 - segP2) (segQ2 - segP2) -
      Vec3.dot (segQ1 - segP1) (segQ2 - segP2) *
        Vec3.dot (segQ1 - segP1) (segQ2 - segP2) = 1 / 1048576 ∧
    (1 / 1048576 : ℝ) < 1e-6 ∧
    squaredDistanceBetweenEdges segP1 segQ1 segP2 segQ2 = 1 ∧
    specParallelFallbackSqDist segP1 segQ1 segP2 segQ2 = 4 ∧
    (1 : ℝ) ≠ 4 := by
  refine ⟨?_, by norm_num, ?_, ?_, by norm_num⟩
  · norm_num [Vec3.dot, segP1, segQ1, segP2, segQ2]
  · norm_num [squaredDistanceBetweenEdges, Vec3.dot, Vec3.length2, clamp,
      segP1, segQ1, segP2, segQ2, min_def, max_def]
  · norm_num [specParallelFallbackSqDist, Vec3.dot, Vec3.length2, clamp,
      segP1, segQ1, segP2, segQ2, min_def, max_def]

end
